import Mathlib

/-!
# render_scout: function-table views and the four bootstrap procedures

A shallow embedding of `src/render_scout.hpp`.

* Pointers are natural numbers, `0` is the null pointer.
* Process memory is a total map from an address and a word offset to the
  pointer-sized word stored there (`mem a i` is the word `((void**)a)[i]`).
* `std::unique_ptr<void*[]>` is an `Option (List Ptr)`: `none` is the null
  unique_ptr, `some t` owns the array `t`.
* An operation whose C++ behaviour is undefined (indexing a null or too short
  array) returns `none`.
-/

namespace render_scout

/-- A machine pointer (`void*`, `HWND`, `HMODULE`, a COM interface pointer). -/
abbrev Ptr := Nat

/-- The null pointer. -/
def nullptr : Ptr := 0

/-- Process memory: `mem a i` is the `i`-th pointer-sized word starting at address `a`. -/
abbrev Memory := Ptr → Nat → Ptr

/-- The enumeration `render_scout::Status`. -/
inductive Status where
  | Success
  | D3DError
  | UnknownError
  | UnknownRenderer
  | DummyWindowInitFailed
  | RendererModuleNotFound
  deriving DecidableEq, Repr

/-- The class `VMT`: `table` is the `std::unique_ptr<void*[]>` member,
`methods_count` the `size_t` member (default member initialiser `0`). -/
structure VMT where
  table : Option (List Ptr) := none
  methods_count : Nat := 0
  deriving DecidableEq, Repr

/-- The constructor `VMT::VMT(void* vmt_address, size_t methods_count)`: nothing is
allocated for a zero count; otherwise `methods_count` words are copied from
`vmt_address` (the `memcpy`) and the count is stored. -/
def VMT.ctor (mem : Memory) (vmt_address : Ptr) (methods_count : Nat) : VMT :=
  if methods_count == 0 then
    {}
  else
    { table := some ((List.range methods_count).map (fun i => mem vmt_address i)),
      methods_count := methods_count }

/-- The accessor `VMT::get_methods_count`. -/
def VMT.get_methods_count (self : VMT) : Nat :=
  self.methods_count

/-- The accessor `VMT::get_method<Index, Method>`: null when the count is zero or
`Index >= methods_count`, otherwise `table[Index]`. The result is `none` where
`table[Index]` is undefined behaviour (a null `table`, or an array shorter than
`Index + 1`). -/
def VMT.get_method (self : VMT) (Index : Nat) : Option Ptr :=
  if self.methods_count == 0 || decide (Index ≥ self.methods_count) then
    some nullptr
  else
    match self.table with
    | none => none
    | some t => t[Index]?

/-- The defaulted move constructor `VMT(VMT&&) = default`: member-wise move.
Moving the `unique_ptr` hands the array over and nulls the source pointer;
moving the `size_t` copies it and leaves the source value as it was.
Returns the new object and the moved-from source. -/
def VMT.move_construct (other : VMT) : VMT × VMT :=
  ({ table := other.table, methods_count := other.methods_count },
   { table := none, methods_count := other.methods_count })

/-- The defaulted move assignment `VMT& operator=(VMT&&) = default`: member-wise
move assignment. The destination's old array is freed and replaced; the source
is left as by `move_construct`. Returns the destination and the moved-from source. -/
def VMT.move_assign (_self other : VMT) : VMT × VMT :=
  ({ table := other.table, methods_count := other.methods_count },
   { table := none, methods_count := other.methods_count })

/-! ## Method descriptors (`namespace methods`) -/

/-- A `HRESULT`. -/
abbrev HRESULT := Int

/-- The SDK test `FAILED(hr)`, that is `hr < 0`. -/
def FAILED (hr : HRESULT) : Bool := decide (hr < 0)

/-- The SDK value `TRUE`. -/
def TRUE : Nat := 1

/-- The SDK value `D3D_SDK_VERSION`. -/
def D3D_SDK_VERSION : Nat := 32

/-- The SDK value `D3D10_SDK_VERSION`. -/
def D3D10_SDK_VERSION : Nat := 29

/-- The SDK value `D3D11_SDK_VERSION`. -/
def D3D11_SDK_VERSION : Nat := 7

/-- The SDK value `D3DADAPTER_DEFAULT`. -/
def D3DADAPTER_DEFAULT : Nat := 0

/-- The SDK values of `D3DDEVTYPE`. -/
def D3DDEVTYPE_HAL : Nat := 1
/-- See `D3DDEVTYPE_HAL`. -/
def D3DDEVTYPE_REF : Nat := 2
/-- See `D3DDEVTYPE_HAL`. -/
def D3DDEVTYPE_SW : Nat := 3
/-- See `D3DDEVTYPE_HAL`. -/
def D3DDEVTYPE_NULLREF : Nat := 4

/-- The SDK value `D3DCREATE_SOFTWARE_VERTEXPROCESSING` (`0x20`). -/
def D3DCREATE_SOFTWARE_VERTEXPROCESSING : Nat := 0x20

/-- The SDK value `D3DCREATE_DISABLE_DRIVER_MANAGEMENT` (`0x100`). -/
def D3DCREATE_DISABLE_DRIVER_MANAGEMENT : Nat := 0x100

/-- The SDK value `D3DSWAPEFFECT_DISCARD`. -/
def D3DSWAPEFFECT_DISCARD : Nat := 1

/-- The SDK value `D3DFMT_UNKNOWN`, the zero of `D3DFORMAT`. -/
def D3DFMT_UNKNOWN : Nat := 0
/-- The SDK value `D3DFMT_A8R8G8B8`. -/
def D3DFMT_A8R8G8B8 : Nat := 21
/-- The SDK value `D3DFMT_X8R8G8B8`. -/
def D3DFMT_X8R8G8B8 : Nat := 22

/-- The SDK values of `D3D10_DRIVER_TYPE`. -/
def D3D10_DRIVER_TYPE_HARDWARE : Nat := 0
/-- See `D3D10_DRIVER_TYPE_HARDWARE`. -/
def D3D10_DRIVER_TYPE_NULL : Nat := 2
/-- See `D3D10_DRIVER_TYPE_HARDWARE`. -/
def D3D10_DRIVER_TYPE_SOFTWARE : Nat := 3
/-- See `D3D10_DRIVER_TYPE_HARDWARE`. -/
def D3D10_DRIVER_TYPE_WARP : Nat := 5

/-- The SDK values of `D3D_DRIVER_TYPE`. -/
def D3D_DRIVER_TYPE_HARDWARE : Nat := 1
/-- See `D3D_DRIVER_TYPE_HARDWARE`. -/
def D3D_DRIVER_TYPE_NULL : Nat := 3
/-- See `D3D_DRIVER_TYPE_HARDWARE`. -/
def D3D_DRIVER_TYPE_SOFTWARE : Nat := 4
/-- See `D3D_DRIVER_TYPE_HARDWARE`. -/
def D3D_DRIVER_TYPE_WARP : Nat := 5

/-- The SDK value `D3D_FEATURE_LEVEL_11_0` (`0xb000`). -/
def D3D_FEATURE_LEVEL_11_0 : Nat := 0xb000

/-- The SDK value `DXGI_FORMAT_R8G8B8A8_UNORM`. -/
def DXGI_FORMAT_R8G8B8A8_UNORM : Nat := 28

/-- The SDK value `DXGI_SWAP_EFFECT_FLIP_SEQUENTIAL`. -/
def DXGI_SWAP_EFFECT_FLIP_SEQUENTIAL : Nat := 3

/-- The SDK value `DXGI_SWAP_EFFECT_FLIP_DISCARD`. -/
def DXGI_SWAP_EFFECT_FLIP_DISCARD : Nat := 4

/-- The SDK structure `D3DPRESENT_PARAMETERS` (the fields that select the
swap-chain shape; the others stay value-initialised in the source). -/
structure D3DPRESENT_PARAMETERS where
  BackBufferWidth : Nat := 0
  BackBufferHeight : Nat := 0
  BackBufferFormat : Nat := 0
  BackBufferCount : Nat := 0
  SwapEffect : Nat := 0
  hDeviceWindow : Ptr := 0
  Windowed : Nat := 0
  deriving DecidableEq, Repr

/-- The SDK structure `DXGI_SWAP_CHAIN_DESC`; `Format` is `BufferDesc.Format`,
`SampleCount` is `SampleDesc.Count`. -/
structure DXGI_SWAP_CHAIN_DESC where
  Width : Nat := 0
  Height : Nat := 0
  Format : Nat := 0
  SampleCount : Nat := 0
  BufferUsage : Nat := 0
  BufferCount : Nat := 0
  OutputWindow : Ptr := 0
  Windowed : Nat := 0
  SwapEffect : Nat := 0
  Flags : Nat := 0
  deriving DecidableEq, Repr

/-- The SDK structure `DXGI_SWAP_CHAIN_DESC1`; `SampleCount` is `SampleDesc.Count`. -/
structure DXGI_SWAP_CHAIN_DESC1 where
  Width : Nat := 0
  Height : Nat := 0
  Format : Nat := 0
  Stereo : Nat := 0
  SampleCount : Nat := 0
  BufferUsage : Nat := 0
  BufferCount : Nat := 0
  Scaling : Nat := 0
  SwapEffect : Nat := 0
  AlphaMode : Nat := 0
  Flags : Nat := 0
  deriving DecidableEq, Repr

/-- The SDK structure `D3D12_COMMAND_QUEUE_DESC`; `ListType` is its field `Type`. -/
structure D3D12_COMMAND_QUEUE_DESC where
  ListType : Nat := 0
  Priority : Nat := 0
  Flags : Nat := 0
  NodeMask : Nat := 0
  deriving DecidableEq, Repr

/-- A native creation call together with the arguments the procedure passes
(output pointers and interface ids left out). -/
inductive NativeCall where
  | Direct3DCreate9 (SDKVersion : Nat)
  | CreateDevice (self : Ptr) (Adapter : Nat) (DeviceType : Nat) (hFocusWindow : Ptr)
      (BehaviorFlags : Nat) (params : D3DPRESENT_PARAMETERS)
  | D3D10CreateDeviceAndSwapChain (pAdapter : Ptr) (DriverType : Nat) (Software : Ptr)
      (Flags : Nat) (SDKVersion : Nat) (desc : DXGI_SWAP_CHAIN_DESC)
  | D3D11CreateDeviceAndSwapChain (pAdapter : Ptr) (DriverType : Nat) (Software : Ptr)
      (Flags : Nat) (pFeatureLevels : Ptr) (FeatureLevels : Nat) (SDKVersion : Nat)
      (desc : DXGI_SWAP_CHAIN_DESC)
  | D3D12CreateDevice (pAdapter : Ptr) (MinimumFeatureLevel : Nat)
  | CreateDXGIFactory2 (Flags : Nat)
  | CreateCommandQueue (self : Ptr) (desc : D3D12_COMMAND_QUEUE_DESC)
  | CreateSwapChainForHwnd (self : Ptr) (pDevice : Ptr) (hWnd : Ptr)
      (desc : DXGI_SWAP_CHAIN_DESC1) (pFullscreenDesc : Ptr) (pRestrictToOutput : Ptr)
  deriving DecidableEq, Repr

/-- What a procedure does that is visible outside it, in program order. -/
inductive Event where
  /-- The call `RegisterClassExW` for the class name, with the atom it returned. -/
  | RegisterClassExW (class_name : String) (atom : Nat)
  /-- The call `CreateWindowW` for the class atom, with the handle it returned. -/
  | CreateWindowW (atom : Nat) (hwnd : Ptr)
  /-- The call `DestroyWindow`. -/
  | DestroyWindow (hwnd : Ptr)
  /-- The call `UnregisterClassW`. -/
  | UnregisterClassW (atom : Nat)
  /-- A failed `assert`: the process is aborted. -/
  | abort
  /-- A native creation call. -/
  | call (c : NativeCall)
  /-- A native call handed the caller one reference to the object. -/
  | acquire (obj : Ptr)
  /-- The call `obj->AddRef()`. -/
  | AddRef (obj : Ptr)
  /-- The call `obj->Release()`. -/
  | Release (obj : Ptr)
  /-- The assignment `*slot = VMT(vmt_address, methods_count)` to the output
  parameter at position `slot` (counted from 0). -/
  | copy_out (slot : Nat) (vmt_address : Ptr) (methods_count : Nat)
  deriving DecidableEq, Repr

/-- The process and platform a procedure runs in: the build mode, the answers of
the operating system and of the graphics runtimes, and memory as it is when the
tables are read. -/
structure Env where
  /-- Whether `assert` is active (`NDEBUG` not defined). -/
  assertions_enabled : Bool
  /-- The result of `GetModuleHandleW(name)`. -/
  GetModuleHandleW : String → Ptr
  /-- The result of `GetProcAddress(module, name)`. -/
  GetProcAddress : Ptr → String → Ptr
  /-- The atom `RegisterClassExW` returns for the class name (`0` on failure). -/
  RegisterClassExW : String → Nat
  /-- The handle `CreateWindowW` returns for the class atom (null on failure). -/
  CreateWindowW : Nat → Ptr
  /-- The object `Direct3DCreate9(SDKVersion)` returns. -/
  Direct3DCreate9 : Nat → Ptr
  /-- The result and the device of `IDirect3D9::CreateDevice`. -/
  CreateDevice : Ptr → Nat → Nat → Ptr → Nat → D3DPRESENT_PARAMETERS → HRESULT × Ptr
  /-- The result, the swap chain and the device of `D3D10CreateDeviceAndSwapChain`. -/
  D3D10CreateDeviceAndSwapChain :
    Ptr → Nat → Ptr → Nat → Nat → DXGI_SWAP_CHAIN_DESC → HRESULT × Ptr × Ptr
  /-- The result, the swap chain, the device and the context of
  `D3D11CreateDeviceAndSwapChain`. -/
  D3D11CreateDeviceAndSwapChain :
    Ptr → Nat → Ptr → Nat → Ptr → Nat → Nat → DXGI_SWAP_CHAIN_DESC → HRESULT × Ptr × Ptr × Ptr
  /-- The result and the device of `D3D12CreateDevice`. -/
  D3D12CreateDevice : Ptr → Nat → HRESULT × Ptr
  /-- The result and the factory of `CreateDXGIFactory2`. -/
  CreateDXGIFactory2 : Nat → HRESULT × Ptr
  /-- The result and the queue of `ID3D12Device::CreateCommandQueue`. -/
  CreateCommandQueue : Ptr → D3D12_COMMAND_QUEUE_DESC → HRESULT × Ptr
  /-- The result and the swap chain of `IDXGIFactory2::CreateSwapChainForHwnd`. -/
  CreateSwapChainForHwnd :
    Ptr → Ptr → Ptr → DXGI_SWAP_CHAIN_DESC1 → Ptr → Ptr → HRESULT × Ptr
  /-- Memory at the time the tables are read. -/
  mem : Memory

/-- What a call of a procedure leaves behind: the returned status (`none` when a
failed `assert` aborted the process before any return), the output slots, and
the events in program order. -/
structure Outcome (S : Type) where
  status : Option Status
  slots : S
  trace : List Event

/-! ## `detail::DummyWindow` -/

/-- The class `detail::DummyWindow`: the class atom and the window handle. -/
structure DummyWindow where
  klass : Nat := 0
  window : Ptr := 0
  deriving DecidableEq, Repr

/-- The constructor `DummyWindow(const wchar_t* window_class_name)`: registers the
class, asserts the atom, creates the window under the atom, asserts the handle.
The first component is `none` when an active `assert` failed. -/
def DummyWindow.ctor (env : Env) (window_class_name : String) :
    Option DummyWindow × List Event :=
  if env.assertions_enabled = true ∧ env.RegisterClassExW window_class_name = 0 then
    (none,
      [Event.RegisterClassExW window_class_name (env.RegisterClassExW window_class_name),
       Event.abort])
  else if env.assertions_enabled = true ∧
      env.CreateWindowW (env.RegisterClassExW window_class_name) = nullptr then
    (none,
      [Event.RegisterClassExW window_class_name (env.RegisterClassExW window_class_name),
       Event.CreateWindowW (env.RegisterClassExW window_class_name)
         (env.CreateWindowW (env.RegisterClassExW window_class_name)),
       Event.abort])
  else
    (some { klass := env.RegisterClassExW window_class_name,
            window := env.CreateWindowW (env.RegisterClassExW window_class_name) },
      [Event.RegisterClassExW window_class_name (env.RegisterClassExW window_class_name),
       Event.CreateWindowW (env.RegisterClassExW window_class_name)
         (env.CreateWindowW (env.RegisterClassExW window_class_name))])

/-- The default constructor `DummyWindow()`, which delegates with the class name
`tmp_window_class`. -/
def DummyWindow.ctor_default (env : Env) : Option DummyWindow × List Event :=
  DummyWindow.ctor env "tmp_window_class"

/-- The destructor `~DummyWindow()`: destroys the window if there is one, then
unregisters the class if there is one. -/
def DummyWindow.dtor (self : DummyWindow) : List Event :=
  (if self.window ≠ nullptr then [Event.DestroyWindow self.window] else []) ++
  (if self.klass ≠ 0 then [Event.UnregisterClassW self.klass] else [])

/-- The accessor `DummyWindow::get_handle`. -/
def DummyWindow.get_handle (self : DummyWindow) : Ptr :=
  self.window

/-- The accessor `DummyWindow::is_initialized`. -/
def DummyWindow.is_initialized (self : DummyWindow) : Bool :=
  self.klass != 0 && self.window != nullptr

/-! ## `Microsoft::WRL::ComPtr`

The smart pointer comes from the SDK header `wrl/client.h`. Its constructor from
a raw pointer stores the pointer and calls `AddRef` on it; `operator&` on an
empty pointer yields the address a native call writes its object to, without
any `AddRef`; the destructor calls `Release` on a non-null pointer. A native
call that hands out an object gives the caller one reference to it. -/

/-- The events of a native call handing `obj` to the caller: one reference, when
the pointer is not null. -/
def acquire (obj : Ptr) : List Event :=
  if obj ≠ nullptr then [Event.acquire obj] else []

/-- The events of `ComPtr<T> p = raw`: `AddRef` on a non-null pointer. -/
def ComPtr_from_raw (raw : Ptr) : List Event :=
  if raw ≠ nullptr then [Event.AddRef raw] else []

/-- The events of `~ComPtr()`: `Release` on a non-null pointer. -/
def ComPtr_dtor (ptr : Ptr) : List Event :=
  if ptr ≠ nullptr then [Event.Release ptr] else []

/-- The guarded assignment `if (slot) { *slot = std::move(VMT(vmt_address, count)); }`
to the output parameter at position `pos`: the new slot content and the events. -/
def assign_slot (mem : Memory) (pos : Nat) (slot : Option VMT) (vmt_address : Ptr)
    (count : Nat) : Option VMT × List Event :=
  match slot with
  | none => (none, [])
  | some old =>
    (some (VMT.move_assign old (VMT.ctor mem vmt_address count)).1,
      [Event.copy_out pos vmt_address count])

/-! ## The four bootstrap procedures

Local objects are destroyed at every `return` in the reverse order of their
declaration: the `ComPtr`s first (last declared first), the `DummyWindow` last.
The output slots are `Option VMT`: `none` is a null output pointer, `some v` a
pointer to a `VMT` object currently holding `v`; the slots of one call are
distinct objects. -/

/-- The parameter block `params` of `get_d3d9_vmt`. -/
def d3d9_params (hwnd : Ptr) : D3DPRESENT_PARAMETERS :=
  { Windowed := TRUE, SwapEffect := D3DSWAPEFFECT_DISCARD, hDeviceWindow := hwnd }

/-- The behaviour flags `get_d3d9_vmt` passes to `CreateDevice`
(`D3DCREATE_DISABLE_DRIVER_MANAGEMENT | D3DCREATE_SOFTWARE_VERTEXPROCESSING`;
the two flags share no bit, so the bitwise or is their sum). -/
def d3d9_behavior_flags : Nat :=
  D3DCREATE_DISABLE_DRIVER_MANAGEMENT ||| D3DCREATE_SOFTWARE_VERTEXPROCESSING

/-- The procedure `get_d3d9_vmt(VMT* d3d9_vmt, VMT* device_vmt)`. -/
def get_d3d9_vmt (env : Env) (d3d9_vmt device_vmt : Option VMT) :
    Outcome (Option VMT × Option VMT) :=
  let d3d9_methods_count := 17
  let device_methods_count := 119
  let d3d9_mod := env.GetModuleHandleW "d3d9.dll"
  if d3d9_mod = nullptr then
    { status := some Status.RendererModuleNotFound, slots := (d3d9_vmt, device_vmt), trace := [] }
  else
  let create_fn := env.GetProcAddress d3d9_mod "Direct3DCreate9"
  if create_fn = nullptr then
    { status := some Status.UnknownError, slots := (d3d9_vmt, device_vmt), trace := [] }
  else
  match DummyWindow.ctor_default env with
  | (none, t0) => { status := none, slots := (d3d9_vmt, device_vmt), trace := t0 }
  | (some window, t0) =>
  if window.is_initialized = false then
    { status := some Status.DummyWindowInitFailed, slots := (d3d9_vmt, device_vmt),
      trace := t0 ++ window.dtor }
  else
  let d3d := env.Direct3DCreate9 D3D_SDK_VERSION
  let t1 := t0 ++ [Event.call (NativeCall.Direct3DCreate9 D3D_SDK_VERSION)] ++ acquire d3d ++
    ComPtr_from_raw d3d
  if d3d = nullptr then
    { status := some Status.D3DError, slots := (d3d9_vmt, device_vmt),
      trace := t1 ++ ComPtr_dtor d3d ++ window.dtor }
  else
  let params := d3d9_params window.get_handle
  let r := env.CreateDevice d3d D3DADAPTER_DEFAULT D3DDEVTYPE_NULLREF window.get_handle
    d3d9_behavior_flags params
  let hr := r.1
  let device := r.2
  let t2 := t1 ++ [Event.call (NativeCall.CreateDevice d3d D3DADAPTER_DEFAULT D3DDEVTYPE_NULLREF
    window.get_handle d3d9_behavior_flags params)] ++ acquire device
  if FAILED hr = true then
    { status := some Status.D3DError, slots := (d3d9_vmt, device_vmt),
      trace := t2 ++ ComPtr_dtor device ++ ComPtr_dtor d3d ++ window.dtor }
  else
  let w0 := assign_slot env.mem 0 d3d9_vmt (env.mem d3d 0) d3d9_methods_count
  let w1 := assign_slot env.mem 1 device_vmt (env.mem device 0) device_methods_count
  { status := some Status.Success, slots := (w0.1, w1.1),
    trace := t2 ++ w0.2 ++ w1.2 ++ ComPtr_dtor device ++ ComPtr_dtor d3d ++ window.dtor }

/-- The descriptor block `desc` of `get_d3d10_vmt` and of `get_d3d11_vmt`. -/
def dxgi_desc (hwnd : Ptr) : DXGI_SWAP_CHAIN_DESC :=
  { Windowed := TRUE, BufferCount := 1, SampleCount := 1, OutputWindow := hwnd,
    Format := DXGI_FORMAT_R8G8B8A8_UNORM }

/-- The procedure `get_d3d10_vmt(VMT* swapchain_vmt, VMT* device_vmt)`. -/
def get_d3d10_vmt (env : Env) (swapchain_vmt device_vmt : Option VMT) :
    Outcome (Option VMT × Option VMT) :=
  let device_methods_count := 98
  let swapchain_methods_count := 18
  let d3d10_mod := env.GetModuleHandleW "d3d10.dll"
  if d3d10_mod = nullptr then
    { status := some Status.RendererModuleNotFound, slots := (swapchain_vmt, device_vmt),
      trace := [] }
  else
  let create_fn := env.GetProcAddress d3d10_mod "D3D10CreateDeviceAndSwapChain"
  if create_fn = nullptr then
    { status := some Status.UnknownError, slots := (swapchain_vmt, device_vmt), trace := [] }
  else
  match DummyWindow.ctor_default env with
  | (none, t0) => { status := none, slots := (swapchain_vmt, device_vmt), trace := t0 }
  | (some window, t0) =>
  if window.is_initialized = false then
    { status := some Status.DummyWindowInitFailed, slots := (swapchain_vmt, device_vmt),
      trace := t0 ++ window.dtor }
  else
  let desc := dxgi_desc window.get_handle
  let r := env.D3D10CreateDeviceAndSwapChain nullptr D3D10_DRIVER_TYPE_NULL nullptr 0
    D3D10_SDK_VERSION desc
  let hr := r.1
  let swapchain := r.2.1
  let device := r.2.2
  let t1 := t0 ++ [Event.call (NativeCall.D3D10CreateDeviceAndSwapChain nullptr
    D3D10_DRIVER_TYPE_NULL nullptr 0 D3D10_SDK_VERSION desc)] ++ acquire swapchain ++
    acquire device
  if FAILED hr = true then
    { status := some Status.D3DError, slots := (swapchain_vmt, device_vmt),
      trace := t1 ++ ComPtr_dtor swapchain ++ ComPtr_dtor device ++ window.dtor }
  else
  let w1 := assign_slot env.mem 1 device_vmt (env.mem device 0) device_methods_count
  let w0 := assign_slot env.mem 0 swapchain_vmt (env.mem swapchain 0) swapchain_methods_count
  { status := some Status.Success, slots := (w0.1, w1.1),
    trace := t1 ++ w1.2 ++ w0.2 ++ ComPtr_dtor swapchain ++ ComPtr_dtor device ++ window.dtor }

/-- The procedure `get_d3d11_vmt(VMT* swapchain_vmt, VMT* device_vmt, VMT* context_vmt)`. -/
def get_d3d11_vmt (env : Env) (swapchain_vmt device_vmt context_vmt : Option VMT) :
    Outcome (Option VMT × Option VMT × Option VMT) :=
  let device_methods_count := 43
  let context_methods_count := 115
  let swapchain_methods_count := 18
  let d3d11_mod := env.GetModuleHandleW "d3d11.dll"
  if d3d11_mod = nullptr then
    { status := some Status.RendererModuleNotFound,
      slots := (swapchain_vmt, device_vmt, context_vmt), trace := [] }
  else
  let create_fn := env.GetProcAddress d3d11_mod "D3D11CreateDeviceAndSwapChain"
  if create_fn = nullptr then
    { status := some Status.UnknownError, slots := (swapchain_vmt, device_vmt, context_vmt),
      trace := [] }
  else
  match DummyWindow.ctor_default env with
  | (none, t0) =>
    { status := none, slots := (swapchain_vmt, device_vmt, context_vmt), trace := t0 }
  | (some window, t0) =>
  if window.is_initialized = false then
    { status := some Status.DummyWindowInitFailed,
      slots := (swapchain_vmt, device_vmt, context_vmt), trace := t0 ++ window.dtor }
  else
  let desc := dxgi_desc window.get_handle
  let r := env.D3D11CreateDeviceAndSwapChain nullptr D3D_DRIVER_TYPE_NULL nullptr 0 nullptr 0
    D3D11_SDK_VERSION desc
  let hr := r.1
  let swapchain := r.2.1
  let device := r.2.2.1
  let context := r.2.2.2
  let t1 := t0 ++ [Event.call (NativeCall.D3D11CreateDeviceAndSwapChain nullptr
    D3D_DRIVER_TYPE_NULL nullptr 0 nullptr 0 D3D11_SDK_VERSION desc)] ++ acquire swapchain ++
    acquire device ++ acquire context
  if FAILED hr = true then
    { status := some Status.D3DError, slots := (swapchain_vmt, device_vmt, context_vmt),
      trace := t1 ++ ComPtr_dtor context ++ ComPtr_dtor swapchain ++ ComPtr_dtor device ++
        window.dtor }
  else
  let w1 := assign_slot env.mem 1 device_vmt (env.mem device 0) device_methods_count
  let w2 := assign_slot env.mem 2 context_vmt (env.mem context 0) context_methods_count
  let w0 := assign_slot env.mem 0 swapchain_vmt (env.mem swapchain 0) swapchain_methods_count
  { status := some Status.Success, slots := (w0.1, w1.1, w2.1),
    trace := t1 ++ w1.2 ++ w2.2 ++ w0.2 ++ ComPtr_dtor context ++ ComPtr_dtor swapchain ++
      ComPtr_dtor device ++ window.dtor }

/-- The descriptor block `desc` of `get_d3d12_vmt`. -/
def dxgi_desc1 : DXGI_SWAP_CHAIN_DESC1 :=
  { BufferCount := 2, SampleCount := 1, Format := DXGI_FORMAT_R8G8B8A8_UNORM,
    SwapEffect := DXGI_SWAP_EFFECT_FLIP_DISCARD }

/-- The procedure
`get_d3d12_vmt(VMT* swapchain_vmt, VMT* device_vmt, VMT* command_queue_vmt)`. -/
def get_d3d12_vmt (env : Env) (swapchain_vmt device_vmt command_queue_vmt : Option VMT) :
    Outcome (Option VMT × Option VMT × Option VMT) :=
  let device_methods_count := 44
  let swapchain_methods_count := 29
  let command_queue_methods_count := 19
  let slots := (swapchain_vmt, device_vmt, command_queue_vmt)
  let d3d12_mod := env.GetModuleHandleW "d3d12.dll"
  if d3d12_mod = nullptr then
    { status := some Status.RendererModuleNotFound, slots := slots, trace := [] }
  else
  let dxgi_mod := env.GetModuleHandleW "dxgi.dll"
  if dxgi_mod = nullptr then
    { status := some Status.RendererModuleNotFound, slots := slots, trace := [] }
  else
  let create_fn := env.GetProcAddress d3d12_mod "D3D12CreateDevice"
  if create_fn = nullptr then
    { status := some Status.UnknownError, slots := slots, trace := [] }
  else
  let create_factory_fn := env.GetProcAddress dxgi_mod "CreateDXGIFactory2"
  if create_factory_fn = nullptr then
    { status := some Status.UnknownError, slots := slots, trace := [] }
  else
  match DummyWindow.ctor_default env with
  | (none, t0) => { status := none, slots := slots, trace := t0 }
  | (some window, t0) =>
  if window.is_initialized = false then
    { status := some Status.DummyWindowInitFailed, slots := slots, trace := t0 ++ window.dtor }
  else
  let r1 := env.D3D12CreateDevice nullptr D3D_FEATURE_LEVEL_11_0
  let device := r1.2
  let t1 := t0 ++ [Event.call (NativeCall.D3D12CreateDevice nullptr D3D_FEATURE_LEVEL_11_0)] ++
    acquire device
  if FAILED r1.1 = true then
    { status := some Status.D3DError, slots := slots,
      trace := t1 ++ ComPtr_dtor device ++ window.dtor }
  else
  let r2 := env.CreateDXGIFactory2 0
  let factory := r2.2
  let t2 := t1 ++ [Event.call (NativeCall.CreateDXGIFactory2 0)] ++ acquire factory
  if FAILED r2.1 = true then
    { status := some Status.D3DError, slots := slots,
      trace := t2 ++ ComPtr_dtor factory ++ ComPtr_dtor device ++ window.dtor }
  else
  let cmq_desc : D3D12_COMMAND_QUEUE_DESC := {}
  let r3 := env.CreateCommandQueue device cmq_desc
  let command_queue := r3.2
  let t3 := t2 ++ [Event.call (NativeCall.CreateCommandQueue device cmq_desc)] ++
    acquire command_queue
  if FAILED r3.1 = true then
    { status := some Status.D3DError, slots := slots,
      trace := t3 ++ ComPtr_dtor command_queue ++ ComPtr_dtor factory ++ ComPtr_dtor device ++
        window.dtor }
  else
  let desc := dxgi_desc1
  let r4 := env.CreateSwapChainForHwnd factory command_queue window.get_handle desc nullptr
    nullptr
  let swapchain := r4.2
  let t4 := t3 ++ [Event.call (NativeCall.CreateSwapChainForHwnd factory command_queue
    window.get_handle desc nullptr nullptr)] ++ acquire swapchain
  if FAILED r4.1 = true then
    { status := some Status.D3DError, slots := slots,
      trace := t4 ++ ComPtr_dtor swapchain ++ ComPtr_dtor command_queue ++
        ComPtr_dtor factory ++ ComPtr_dtor device ++ window.dtor }
  else
  let w1 := assign_slot env.mem 1 device_vmt (env.mem device 0) device_methods_count
  let w0 := assign_slot env.mem 0 swapchain_vmt (env.mem swapchain 0) swapchain_methods_count
  let w2 := assign_slot env.mem 2 command_queue_vmt (env.mem command_queue 0)
    command_queue_methods_count
  { status := some Status.Success, slots := (w0.1, w1.1, w2.1),
    trace := t4 ++ w1.2 ++ w0.2 ++ w2.2 ++ ComPtr_dtor swapchain ++ ComPtr_dtor command_queue ++
      ComPtr_dtor factory ++ ComPtr_dtor device ++ window.dtor }

/-! ## The decision the procedures take, read off the environment -/

/-- The status named by the first check that fails, in the order resolve module,
resolve entry point, hidden window, native creation. -/
def first_failing_check (module_present entry_present window_initialized creation_ok : Bool) :
    Status :=
  if module_present = false then Status.RendererModuleNotFound
  else if entry_present = false then Status.UnknownError
  else if window_initialized = false then Status.DummyWindowInitFailed
  else if creation_ok = false then Status.D3DError
  else Status.Success

/-- The class atom the hidden window registers in `env`. -/
def window_klass (env : Env) : Nat :=
  env.RegisterClassExW "tmp_window_class"

/-- The handle of the hidden window in `env`. -/
def window_handle (env : Env) : Ptr :=
  env.CreateWindowW (window_klass env)

/-- Whether both halves of the hidden window come into being in `env`. -/
def window_initialized (env : Env) : Bool :=
  window_klass env != 0 && window_handle env != nullptr

/-- The status a procedure ends with, given what its checks find: no status when
the procedure reaches the hidden window, `assert` is active and the window does
not come into being; the first failing check otherwise. -/
def expected_status (env : Env) (module_present entry_present creation_ok : Bool) :
    Option Status :=
  if module_present = true ∧ entry_present = true ∧ env.assertions_enabled = true ∧
      window_initialized env = false then
    none
  else
    some (first_failing_check module_present entry_present (window_initialized env) creation_ok)

/-- Whether `d3d9.dll` is loaded in `env`. -/
def d3d9_module_present (env : Env) : Bool :=
  env.GetModuleHandleW "d3d9.dll" != nullptr

/-- Whether the loaded `d3d9.dll` exports `Direct3DCreate9` in `env`. -/
def d3d9_entry_present (env : Env) : Bool :=
  env.GetProcAddress (env.GetModuleHandleW "d3d9.dll") "Direct3DCreate9" != nullptr

/-- The `IDirect3D9` object `get_d3d9_vmt` obtains in `env`. -/
def d3d9_object (env : Env) : Ptr :=
  env.Direct3DCreate9 D3D_SDK_VERSION

/-- The answer to the `CreateDevice` call of `get_d3d9_vmt` in `env`. -/
def d3d9_create_device (env : Env) : HRESULT × Ptr :=
  env.CreateDevice (d3d9_object env) D3DADAPTER_DEFAULT D3DDEVTYPE_NULLREF (window_handle env)
    d3d9_behavior_flags (d3d9_params (window_handle env))

/-- The `IDirect3DDevice9` object `get_d3d9_vmt` obtains in `env`. -/
def d3d9_device (env : Env) : Ptr :=
  (d3d9_create_device env).2

/-- Whether both native creation calls of `get_d3d9_vmt` succeed in `env`. -/
def d3d9_creation_ok (env : Env) : Bool :=
  d3d9_object env != nullptr && !FAILED (d3d9_create_device env).1

/-- The view `get_d3d9_vmt` takes of the `IDirect3D9` object. -/
def d3d9_view (env : Env) : VMT :=
  VMT.ctor env.mem (env.mem (d3d9_object env) 0) 17

/-- The view `get_d3d9_vmt` takes of the `IDirect3DDevice9` object. -/
def d3d9_device_view (env : Env) : VMT :=
  VMT.ctor env.mem (env.mem (d3d9_device env) 0) 119

/-- Whether `d3d10.dll` is loaded in `env`. -/
def d3d10_module_present (env : Env) : Bool :=
  env.GetModuleHandleW "d3d10.dll" != nullptr

/-- Whether the loaded `d3d10.dll` exports `D3D10CreateDeviceAndSwapChain` in `env`. -/
def d3d10_entry_present (env : Env) : Bool :=
  env.GetProcAddress (env.GetModuleHandleW "d3d10.dll") "D3D10CreateDeviceAndSwapChain" !=
    nullptr

/-- The answer to the creation call of `get_d3d10_vmt` in `env`. -/
def d3d10_create (env : Env) : HRESULT × Ptr × Ptr :=
  env.D3D10CreateDeviceAndSwapChain nullptr D3D10_DRIVER_TYPE_NULL nullptr 0 D3D10_SDK_VERSION
    (dxgi_desc (window_handle env))

/-- The `IDXGISwapChain` object `get_d3d10_vmt` obtains in `env`. -/
def d3d10_swapchain (env : Env) : Ptr :=
  (d3d10_create env).2.1

/-- The `ID3D10Device` object `get_d3d10_vmt` obtains in `env`. -/
def d3d10_device (env : Env) : Ptr :=
  (d3d10_create env).2.2

/-- Whether the native creation call of `get_d3d10_vmt` succeeds in `env`. -/
def d3d10_creation_ok (env : Env) : Bool :=
  !FAILED (d3d10_create env).1

/-- The view `get_d3d10_vmt` takes of the swap chain. -/
def d3d10_swapchain_view (env : Env) : VMT :=
  VMT.ctor env.mem (env.mem (d3d10_swapchain env) 0) 18

/-- The view `get_d3d10_vmt` takes of the device. -/
def d3d10_device_view (env : Env) : VMT :=
  VMT.ctor env.mem (env.mem (d3d10_device env) 0) 98

/-- Whether `d3d11.dll` is loaded in `env`. -/
def d3d11_module_present (env : Env) : Bool :=
  env.GetModuleHandleW "d3d11.dll" != nullptr

/-- Whether the loaded `d3d11.dll` exports `D3D11CreateDeviceAndSwapChain` in `env`. -/
def d3d11_entry_present (env : Env) : Bool :=
  env.GetProcAddress (env.GetModuleHandleW "d3d11.dll") "D3D11CreateDeviceAndSwapChain" !=
    nullptr

/-- The answer to the creation call of `get_d3d11_vmt` in `env`. -/
def d3d11_create (env : Env) : HRESULT × Ptr × Ptr × Ptr :=
  env.D3D11CreateDeviceAndSwapChain nullptr D3D_DRIVER_TYPE_NULL nullptr 0 nullptr 0
    D3D11_SDK_VERSION (dxgi_desc (window_handle env))

/-- The `IDXGISwapChain` object `get_d3d11_vmt` obtains in `env`. -/
def d3d11_swapchain (env : Env) : Ptr :=
  (d3d11_create env).2.1

/-- The `ID3D11Device` object `get_d3d11_vmt` obtains in `env`. -/
def d3d11_device (env : Env) : Ptr :=
  (d3d11_create env).2.2.1

/-- The `ID3D11DeviceContext` object `get_d3d11_vmt` obtains in `env`. -/
def d3d11_context (env : Env) : Ptr :=
  (d3d11_create env).2.2.2

/-- Whether the native creation call of `get_d3d11_vmt` succeeds in `env`. -/
def d3d11_creation_ok (env : Env) : Bool :=
  !FAILED (d3d11_create env).1

/-- The view `get_d3d11_vmt` takes of the swap chain. -/
def d3d11_swapchain_view (env : Env) : VMT :=
  VMT.ctor env.mem (env.mem (d3d11_swapchain env) 0) 18

/-- The view `get_d3d11_vmt` takes of the device. -/
def d3d11_device_view (env : Env) : VMT :=
  VMT.ctor env.mem (env.mem (d3d11_device env) 0) 43

/-- The view `get_d3d11_vmt` takes of the context. -/
def d3d11_context_view (env : Env) : VMT :=
  VMT.ctor env.mem (env.mem (d3d11_context env) 0) 115

/-- Whether `d3d12.dll` and `dxgi.dll` are both loaded in `env`. -/
def d3d12_module_present (env : Env) : Bool :=
  env.GetModuleHandleW "d3d12.dll" != nullptr && env.GetModuleHandleW "dxgi.dll" != nullptr

/-- Whether the loaded modules export `D3D12CreateDevice` and `CreateDXGIFactory2`
in `env`. -/
def d3d12_entry_present (env : Env) : Bool :=
  env.GetProcAddress (env.GetModuleHandleW "d3d12.dll") "D3D12CreateDevice" != nullptr &&
  env.GetProcAddress (env.GetModuleHandleW "dxgi.dll") "CreateDXGIFactory2" != nullptr

/-- The answer to the `D3D12CreateDevice` call of `get_d3d12_vmt` in `env`. -/
def d3d12_create_device (env : Env) : HRESULT × Ptr :=
  env.D3D12CreateDevice nullptr D3D_FEATURE_LEVEL_11_0

/-- The `ID3D12Device` object `get_d3d12_vmt` obtains in `env`. -/
def d3d12_device (env : Env) : Ptr :=
  (d3d12_create_device env).2

/-- The answer to the `CreateDXGIFactory2` call of `get_d3d12_vmt` in `env`. -/
def d3d12_create_factory (env : Env) : HRESULT × Ptr :=
  env.CreateDXGIFactory2 0

/-- The `IDXGIFactory2` object `get_d3d12_vmt` obtains in `env`. -/
def d3d12_factory (env : Env) : Ptr :=
  (d3d12_create_factory env).2

/-- The answer to the `CreateCommandQueue` call of `get_d3d12_vmt` in `env`. -/
def d3d12_create_queue (env : Env) : HRESULT × Ptr :=
  env.CreateCommandQueue (d3d12_device env) {}

/-- The `ID3D12CommandQueue` object `get_d3d12_vmt` obtains in `env`. -/
def d3d12_command_queue (env : Env) : Ptr :=
  (d3d12_create_queue env).2

/-- The answer to the `CreateSwapChainForHwnd` call of `get_d3d12_vmt` in `env`. -/
def d3d12_create_swapchain (env : Env) : HRESULT × Ptr :=
  env.CreateSwapChainForHwnd (d3d12_factory env) (d3d12_command_queue env) (window_handle env)
    dxgi_desc1 nullptr nullptr

/-- The `IDXGISwapChain1` object `get_d3d12_vmt` obtains in `env`. -/
def d3d12_swapchain (env : Env) : Ptr :=
  (d3d12_create_swapchain env).2

/-- Whether all four native creation calls of `get_d3d12_vmt` succeed in `env`. -/
def d3d12_creation_ok (env : Env) : Bool :=
  !FAILED (d3d12_create_device env).1 && !FAILED (d3d12_create_factory env).1 &&
  !FAILED (d3d12_create_queue env).1 && !FAILED (d3d12_create_swapchain env).1

/-- The view `get_d3d12_vmt` takes of the swap chain. -/
def d3d12_swapchain_view (env : Env) : VMT :=
  VMT.ctor env.mem (env.mem (d3d12_swapchain env) 0) 29

/-- The view `get_d3d12_vmt` takes of the device. -/
def d3d12_device_view (env : Env) : VMT :=
  VMT.ctor env.mem (env.mem (d3d12_device env) 0) 44

/-- The view `get_d3d12_vmt` takes of the command queue. -/
def d3d12_command_queue_view (env : Env) : VMT :=
  VMT.ctor env.mem (env.mem (d3d12_command_queue env) 0) 19

/-- A sample memory in which word `i` of address `a` holds `a + i + 1` (never null). -/
def sample_mem : Memory := fun a i => a + i + 1

/-- An environment in which every check of every procedure passes: assertions
compiled out, every module loaded, every entry point exported, the window
created, every native call successful, every object at its own address. -/
def sample_env : Env where
  assertions_enabled := false
  GetModuleHandleW := fun _ => 0x1000
  GetProcAddress := fun _ _ => 0x2000
  RegisterClassExW := fun _ => 0xC001
  CreateWindowW := fun _ => 0x3000
  Direct3DCreate9 := fun _ => 0x4000
  CreateDevice := fun _ _ _ _ _ _ => (0, 0x5000)
  D3D10CreateDeviceAndSwapChain := fun _ _ _ _ _ _ => (0, 0x6000, 0x7000)
  D3D11CreateDeviceAndSwapChain := fun _ _ _ _ _ _ _ _ => (0, 0x6000, 0x7000, 0x8000)
  D3D12CreateDevice := fun _ _ => (0, 0x7000)
  CreateDXGIFactory2 := fun _ => (0, 0x9000)
  CreateCommandQueue := fun _ _ => (0, 0xA000)
  CreateSwapChainForHwnd := fun _ _ _ _ _ _ => (0, 0x6000)
  mem := sample_mem

/-- The environment `sample_env` with no module loaded. -/
def no_module_env : Env :=
  { sample_env with GetModuleHandleW := fun _ => nullptr }

/-- The environment `sample_env` in a build with active assertions in which the
window class cannot be registered. -/
def assert_env : Env :=
  { sample_env with assertions_enabled := true, RegisterClassExW := fun _ => 0 }

/-- The environment `assert_env` with no module loaded. -/
def assert_no_module_env : Env :=
  { assert_env with GetModuleHandleW := fun _ => nullptr }

/-- The environment `assert_env` in which no module exports its entry point. -/
def assert_no_entry_env : Env :=
  { assert_env with GetProcAddress := fun _ _ => nullptr }

/-- The environment `sample_env` in which the window is not created (assertions
compiled out). -/
def no_window_env : Env :=
  { sample_env with CreateWindowW := fun _ => nullptr }

/-- The environment `sample_env` in which `IDirect3D9::CreateDevice` fails with
`E_FAIL` and hands out no device. -/
def device_failure_env : Env :=
  { sample_env with CreateDevice := fun _ _ _ _ _ _ => (-2147467259, nullptr) }

/-! ## Properties the claims speak of -/

/-- The view `v` is a view of the first `K` entries of the table that the first
word of the object `obj` points to. -/
def is_view_of (mem : Memory) (v : VMT) (obj : Ptr) (K : Nat) : Prop :=
  v.get_methods_count = K ∧
  (∀ Index, Index < K → v.get_method Index = some (mem (mem obj 0) Index)) ∧
  (∀ Index, K ≤ Index → v.get_method Index = some nullptr)

/-- What an output slot holds after a successful call: nothing when the slot was
omitted, a view of the first `K` entries of the table of `obj` when it was
supplied. -/
def slot_holds_view (mem : Memory) (before after : Option VMT) (obj : Ptr) (K : Nat) : Prop :=
  match before with
  | none => after = none
  | some _ => ∃ v, after = some v ∧ is_view_of mem v obj K

/-- What an event adds to the references held on `obj`: one for a hand-out and for
an `AddRef`, one less for a `Release`, nothing otherwise. -/
def ref_weight (obj : Ptr) : Event → Int
  | Event.acquire o => if o = obj then 1 else 0
  | Event.AddRef o => if o = obj then 1 else 0
  | Event.Release o => if o = obj then -1 else 0
  | _ => 0

/-- The references to `obj` still held when the events of `trace` are over. -/
def outstanding_refs (trace : List Event) (obj : Ptr) : Int :=
  (trace.map (ref_weight obj)).sum

/-- The native creation calls among the events of `trace`, in program order. -/
def native_calls (trace : List Event) : List NativeCall :=
  trace.filterMap (fun e =>
    match e with
    | Event.call c => some c
    | _ => none)

/-- The spec's "windowed mode", per call: the `Windowed` member is `TRUE`; for
`CreateSwapChainForHwnd`, which has no such member, no full-screen descriptor
is passed. A call that creates no swap chain passes. -/
def spec_windowed : NativeCall → Bool
  | NativeCall.CreateDevice _ _ _ _ _ params => params.Windowed == TRUE
  | NativeCall.D3D10CreateDeviceAndSwapChain _ _ _ _ _ desc => desc.Windowed == TRUE
  | NativeCall.D3D11CreateDeviceAndSwapChain _ _ _ _ _ _ _ desc => desc.Windowed == TRUE
  | NativeCall.CreateSwapChainForHwnd _ _ _ _ pFullscreenDesc _ => pFullscreenDesc == nullptr
  | _ => true

/-- The spec's "1-buffer (or minimal) swap chain", per call: at most one back
buffer (Direct3D 9 reads a count of zero as one); two for a flip-model swap
chain, which cannot have fewer. A call that creates no swap chain passes. -/
def spec_minimal_buffers : NativeCall → Bool
  | NativeCall.CreateDevice _ _ _ _ _ params => decide (params.BackBufferCount ≤ 1)
  | NativeCall.D3D10CreateDeviceAndSwapChain _ _ _ _ _ desc => desc.BufferCount == 1
  | NativeCall.D3D11CreateDeviceAndSwapChain _ _ _ _ _ _ _ desc => desc.BufferCount == 1
  | NativeCall.CreateSwapChainForHwnd _ _ _ desc _ _ =>
    if desc.SwapEffect = DXGI_SWAP_EFFECT_FLIP_SEQUENTIAL ∨
        desc.SwapEffect = DXGI_SWAP_EFFECT_FLIP_DISCARD then desc.BufferCount == 2
    else desc.BufferCount == 1
  | _ => true

/-- The spec's "standard 32-bit color format", per call: the back-buffer format
is set to a 32-bit RGB format. A call that creates no swap chain passes. -/
def spec_color_32bit : NativeCall → Bool
  | NativeCall.CreateDevice _ _ _ _ _ params =>
    params.BackBufferFormat == D3DFMT_A8R8G8B8 || params.BackBufferFormat == D3DFMT_X8R8G8B8
  | NativeCall.D3D10CreateDeviceAndSwapChain _ _ _ _ _ desc =>
    desc.Format == DXGI_FORMAT_R8G8B8A8_UNORM
  | NativeCall.D3D11CreateDeviceAndSwapChain _ _ _ _ _ _ _ desc =>
    desc.Format == DXGI_FORMAT_R8G8B8A8_UNORM
  | NativeCall.CreateSwapChainForHwnd _ _ _ desc _ _ => desc.Format == DXGI_FORMAT_R8G8B8A8_UNORM
  | _ => true

/-- The spec's "null/software driver type/device type", per call: the device or
driver type argument is a null or software one; for `D3D12CreateDevice`, which
has no such argument and takes the default adapter for a null `pAdapter`, an
adapter is named. A call that creates no device passes. -/
def spec_null_driver : NativeCall → Bool
  | NativeCall.CreateDevice _ _ DeviceType _ _ _ =>
    DeviceType == D3DDEVTYPE_NULLREF || DeviceType == D3DDEVTYPE_SW
  | NativeCall.D3D10CreateDeviceAndSwapChain _ DriverType _ _ _ _ =>
    DriverType == D3D10_DRIVER_TYPE_NULL || DriverType == D3D10_DRIVER_TYPE_SOFTWARE ||
      DriverType == D3D10_DRIVER_TYPE_WARP
  | NativeCall.D3D11CreateDeviceAndSwapChain _ DriverType _ _ _ _ _ _ =>
    DriverType == D3D_DRIVER_TYPE_NULL || DriverType == D3D_DRIVER_TYPE_SOFTWARE ||
      DriverType == D3D_DRIVER_TYPE_WARP
  | NativeCall.D3D12CreateDevice pAdapter _ => pAdapter != nullptr
  | _ => true

/-- The spec's "smallest legal configuration" of a call: all four properties. -/
def spec_smallest_configuration (c : NativeCall) : Bool :=
  spec_windowed c && spec_minimal_buffers c && spec_color_32bit c && spec_null_driver c

/-- Whether a call leaves the colour format to the runtime: `CreateDevice` with
`BackBufferFormat` at `D3DFMT_UNKNOWN`. -/
def format_left_unset : NativeCall → Bool
  | NativeCall.CreateDevice _ _ _ _ _ params => params.BackBufferFormat == D3DFMT_UNKNOWN
  | _ => false

/-- Whether a call creates its device on the default adapter: `D3D12CreateDevice`
with a null `pAdapter`. -/
def on_default_adapter : NativeCall → Bool
  | NativeCall.D3D12CreateDevice pAdapter _ => pAdapter == nullptr
  | _ => false

/-- The one situation in which a procedure returns no status: module and entry
point are found, `assert` is active and the hidden window does not come into
being, so the `assert` in the `DummyWindow` constructor aborts the process. -/
def aborts_in_window (env : Env) (module_present entry_present : Bool) : Prop :=
  module_present = true ∧ entry_present = true ∧ env.assertions_enabled = true ∧
    window_initialized env = false

/-- The returned status follows the first failing check: outside the one
situation `aborts_in_window` it is the status of the first failing check, in
that situation there is no status, and it is `Success` exactly when the four
checks pass. -/
def follows_first_failing_check (env : Env) (status : Option Status)
    (module_present entry_present creation_ok : Bool) : Prop :=
  (¬ aborts_in_window env module_present entry_present →
    status = some (first_failing_check module_present entry_present (window_initialized env)
      creation_ok)) ∧
  (aborts_in_window env module_present entry_present → status = none) ∧
  (status = some Status.Success ↔
    (module_present = true ∧ entry_present = true ∧ window_initialized env = true ∧
      creation_ok = true))

/-- For a procedure with two output slots: the status does not depend on the
slots, a supplied slot ends as it does when every slot is supplied, and an
omitted slot stays omitted and is never assigned. -/
def slots_independent2 (P : Option VMT → Option VMT → Outcome (Option VMT × Option VMT)) :
    Prop :=
  (∀ a b a2 b2, (P a b).status = (P a2 b2).status) ∧
  (∀ x b y, (P (some x) b).slots.1 = (P (some x) (some y)).slots.1) ∧
  (∀ a x y, (P a (some x)).slots.2 = (P (some y) (some x)).slots.2) ∧
  (∀ b, (P none b).slots.1 = none ∧ ∀ addr n, Event.copy_out 0 addr n ∉ (P none b).trace) ∧
  (∀ a, (P a none).slots.2 = none ∧ ∀ addr n, Event.copy_out 1 addr n ∉ (P a none).trace)

/-- For a procedure with three output slots: as `slots_independent2`. -/
def slots_independent3
    (P : Option VMT → Option VMT → Option VMT → Outcome (Option VMT × Option VMT × Option VMT)) :
    Prop :=
  (∀ a b c a2 b2 c2, (P a b c).status = (P a2 b2 c2).status) ∧
  (∀ x b c y z, (P (some x) b c).slots.1 = (P (some x) (some y) (some z)).slots.1) ∧
  (∀ a x c y z, (P a (some x) c).slots.2.1 = (P (some y) (some x) (some z)).slots.2.1) ∧
  (∀ a b x y z, (P a b (some x)).slots.2.2 = (P (some y) (some z) (some x)).slots.2.2) ∧
  (∀ b c, (P none b c).slots.1 = none ∧
    ∀ addr n, Event.copy_out 0 addr n ∉ (P none b c).trace) ∧
  (∀ a c, (P a none c).slots.2.1 = none ∧
    ∀ addr n, Event.copy_out 1 addr n ∉ (P a none c).trace) ∧
  (∀ a b, (P a b none).slots.2.2 = none ∧
    ∀ addr n, Event.copy_out 2 addr n ∉ (P a b none).trace)

/-! ## Theorems -/

/-- C1: the view built by `VMT(table_address, N)` is exactly the first `N` entries
of the source table: the count is `N`, `get_method` returns the source entry at
every index below `N`, and null at every index from `N` on (so at every index
when `N = 0`). -/
theorem C1_view_is_first_entries (mem : Memory) (table_address : Ptr) (N : Nat) :
    (VMT.ctor mem table_address N).get_methods_count = N ∧
    (∀ Index, Index < N →
      (VMT.ctor mem table_address N).get_method Index = some (mem table_address Index)) ∧
    (∀ Index, N ≤ Index →
      (VMT.ctor mem table_address N).get_method Index = some nullptr) ∧
    (∀ Index, (VMT.ctor mem table_address 0).get_method Index = some nullptr) := by
  refine ⟨?_, ?_, ?_, ?_⟩
  · unfold VMT.ctor VMT.get_methods_count
    by_cases h : N = 0 <;> simp [h]
  · intro Index hlt
    have hN : N ≠ 0 := by omega
    have hge : ¬ (N ≤ Index) := by omega
    simp [VMT.ctor, VMT.get_method, hN, hge, hlt, List.getElem?_map, List.getElem?_range]
  · intro Index hle
    unfold VMT.ctor VMT.get_method
    by_cases h : N = 0 <;> simp [h, hle]
  · intro Index
    simp [VMT.ctor, VMT.get_method]

/-- C2 (the code at the failing input): after moving a three-entry view, by move
construction or by move assignment, the destination reports count 3 and holds
the source entries, but the moved-from source still reports count 3 instead of 0
and `get_method` at index 0 indexes its null table instead of returning null. -/
theorem C2_moved_from_source_keeps_count :
    (VMT.move_construct (VMT.ctor sample_mem 100 3)).1.get_methods_count = 3 ∧
    (VMT.move_construct (VMT.ctor sample_mem 100 3)).1.get_method 2 = some 103 ∧
    (VMT.move_construct (VMT.ctor sample_mem 100 3)).2.get_methods_count = 3 ∧
    (VMT.move_construct (VMT.ctor sample_mem 100 3)).2.get_method 0 = none ∧
    (VMT.move_assign {} (VMT.ctor sample_mem 100 3)).2.get_methods_count = 3 ∧
    (VMT.move_assign {} (VMT.ctor sample_mem 100 3)).2.get_method 0 = none := by
  decide

/-! ## The hidden window -/

theorem ctor_default_eq (env : Env) :
    DummyWindow.ctor_default env =
      if env.assertions_enabled = true ∧ window_klass env = 0 then
        (none, [Event.RegisterClassExW "tmp_window_class" (window_klass env), Event.abort])
      else if env.assertions_enabled = true ∧ window_handle env = nullptr then
        (none, [Event.RegisterClassExW "tmp_window_class" (window_klass env),
          Event.CreateWindowW (window_klass env) (window_handle env), Event.abort])
      else
        (some { klass := window_klass env, window := window_handle env },
          [Event.RegisterClassExW "tmp_window_class" (window_klass env),
           Event.CreateWindowW (window_klass env) (window_handle env)]) := by
  rfl

theorem assign_slot_fst (mem : Memory) (pos : Nat) (slot : Option VMT) (a : Ptr) (n : Nat) :
    (assign_slot mem pos slot a n).1 = slot.map (fun _ => VMT.ctor mem a n) := by
  cases slot <;> rfl

theorem get_d3d9_vmt_status (env : Env) (a b : Option VMT) :
    (get_d3d9_vmt env a b).status =
      expected_status env (d3d9_module_present env) (d3d9_entry_present env)
        (d3d9_creation_ok env) := by
  unfold get_d3d9_vmt expected_status first_failing_check d3d9_module_present d3d9_entry_present
    d3d9_creation_ok d3d9_create_device d3d9_object
  simp only [ctor_default_eq]
  by_cases hm : env.GetModuleHandleW "d3d9.dll" = nullptr
  · simp [hm]
  by_cases he : env.GetProcAddress (env.GetModuleHandleW "d3d9.dll") "Direct3DCreate9" = nullptr
  · simp [hm, he]
  by_cases ha : env.assertions_enabled = true <;>
  by_cases hk : window_klass env = 0 <;>
  by_cases hw : window_handle env = nullptr <;>
  by_cases hd : env.Direct3DCreate9 D3D_SDK_VERSION = nullptr <;>
  simp [hm, he, ha, hk, hw, hd, window_initialized, DummyWindow.is_initialized,
    DummyWindow.get_handle] <;>
  split_ifs <;> rfl

theorem get_d3d9_vmt_slots (env : Env) (a b : Option VMT) :
    (get_d3d9_vmt env a b).slots =
      if (get_d3d9_vmt env a b).status = some Status.Success then
        (a.map (fun _ => d3d9_view env), b.map (fun _ => d3d9_device_view env))
      else (a, b) := by
  unfold get_d3d9_vmt d3d9_view d3d9_device_view d3d9_device d3d9_create_device d3d9_object
  simp only [ctor_default_eq, assign_slot_fst]
  by_cases hm : env.GetModuleHandleW "d3d9.dll" = nullptr
  · simp [hm]
  by_cases he : env.GetProcAddress (env.GetModuleHandleW "d3d9.dll") "Direct3DCreate9" = nullptr
  · simp [hm, he]
  by_cases ha : env.assertions_enabled = true <;>
  by_cases hk : window_klass env = 0 <;>
  by_cases hw : window_handle env = nullptr <;>
  by_cases hd : env.Direct3DCreate9 D3D_SDK_VERSION = nullptr <;>
  simp [hm, he, ha, hk, hw, hd, window_initialized, DummyWindow.is_initialized,
    DummyWindow.get_handle] <;>
  split_ifs <;> simp_all

theorem get_d3d10_vmt_status (env : Env) (a b : Option VMT) :
    (get_d3d10_vmt env a b).status =
      expected_status env (d3d10_module_present env) (d3d10_entry_present env)
        (d3d10_creation_ok env) := by
  unfold get_d3d10_vmt expected_status first_failing_check d3d10_module_present
    d3d10_entry_present d3d10_creation_ok d3d10_create
  simp only [ctor_default_eq]
  by_cases hm : env.GetModuleHandleW "d3d10.dll" = nullptr
  · simp [hm]
  by_cases he : env.GetProcAddress (env.GetModuleHandleW "d3d10.dll")
      "D3D10CreateDeviceAndSwapChain" = nullptr
  · simp [hm, he]
  by_cases ha : env.assertions_enabled = true <;>
  by_cases hk : window_klass env = 0 <;>
  by_cases hw : window_handle env = nullptr <;>
  simp [hm, he, ha, hk, hw, window_initialized, DummyWindow.is_initialized,
    DummyWindow.get_handle] <;>
  split_ifs <;> rfl

theorem get_d3d10_vmt_slots (env : Env) (a b : Option VMT) :
    (get_d3d10_vmt env a b).slots =
      if (get_d3d10_vmt env a b).status = some Status.Success then
        (a.map (fun _ => d3d10_swapchain_view env), b.map (fun _ => d3d10_device_view env))
      else (a, b) := by
  unfold get_d3d10_vmt d3d10_swapchain_view d3d10_device_view d3d10_swapchain d3d10_device
    d3d10_create
  simp only [ctor_default_eq, assign_slot_fst]
  by_cases hm : env.GetModuleHandleW "d3d10.dll" = nullptr
  · simp [hm]
  by_cases he : env.GetProcAddress (env.GetModuleHandleW "d3d10.dll")
      "D3D10CreateDeviceAndSwapChain" = nullptr
  · simp [hm, he]
  by_cases ha : env.assertions_enabled = true <;>
  by_cases hk : window_klass env = 0 <;>
  by_cases hw : window_handle env = nullptr <;>
  simp [hm, he, ha, hk, hw, window_initialized, DummyWindow.is_initialized,
    DummyWindow.get_handle] <;>
  split_ifs <;> simp_all

theorem get_d3d11_vmt_status (env : Env) (a b c : Option VMT) :
    (get_d3d11_vmt env a b c).status =
      expected_status env (d3d11_module_present env) (d3d11_entry_present env)
        (d3d11_creation_ok env) := by
  unfold get_d3d11_vmt expected_status first_failing_check d3d11_module_present
    d3d11_entry_present d3d11_creation_ok d3d11_create
  simp only [ctor_default_eq]
  by_cases hm : env.GetModuleHandleW "d3d11.dll" = nullptr
  · simp [hm]
  by_cases he : env.GetProcAddress (env.GetModuleHandleW "d3d11.dll")
      "D3D11CreateDeviceAndSwapChain" = nullptr
  · simp [hm, he]
  by_cases ha : env.assertions_enabled = true <;>
  by_cases hk : window_klass env = 0 <;>
  by_cases hw : window_handle env = nullptr <;>
  simp [hm, he, ha, hk, hw, window_initialized, DummyWindow.is_initialized,
    DummyWindow.get_handle] <;>
  split_ifs <;> rfl

theorem get_d3d11_vmt_slots (env : Env) (a b c : Option VMT) :
    (get_d3d11_vmt env a b c).slots =
      if (get_d3d11_vmt env a b c).status = some Status.Success then
        (a.map (fun _ => d3d11_swapchain_view env), b.map (fun _ => d3d11_device_view env),
          c.map (fun _ => d3d11_context_view env))
      else (a, b, c) := by
  unfold get_d3d11_vmt d3d11_swapchain_view d3d11_device_view d3d11_context_view
    d3d11_swapchain d3d11_device d3d11_context d3d11_create
  simp only [ctor_default_eq, assign_slot_fst]
  by_cases hm : env.GetModuleHandleW "d3d11.dll" = nullptr
  · simp [hm]
  by_cases he : env.GetProcAddress (env.GetModuleHandleW "d3d11.dll")
      "D3D11CreateDeviceAndSwapChain" = nullptr
  · simp [hm, he]
  by_cases ha : env.assertions_enabled = true <;>
  by_cases hk : window_klass env = 0 <;>
  by_cases hw : window_handle env = nullptr <;>
  simp [hm, he, ha, hk, hw, window_initialized, DummyWindow.is_initialized,
    DummyWindow.get_handle] <;>
  split_ifs <;> simp_all

theorem get_d3d12_vmt_status (env : Env) (a b c : Option VMT) :
    (get_d3d12_vmt env a b c).status =
      expected_status env (d3d12_module_present env) (d3d12_entry_present env)
        (d3d12_creation_ok env) := by
  unfold get_d3d12_vmt expected_status first_failing_check d3d12_module_present
    d3d12_entry_present d3d12_creation_ok d3d12_create_swapchain d3d12_command_queue
    d3d12_create_queue d3d12_factory d3d12_create_factory d3d12_device d3d12_create_device
  simp only [ctor_default_eq]
  by_cases hm : env.GetModuleHandleW "d3d12.dll" = nullptr
  · simp [hm]
  by_cases hm2 : env.GetModuleHandleW "dxgi.dll" = nullptr
  · simp [hm, hm2]
  by_cases he : env.GetProcAddress (env.GetModuleHandleW "d3d12.dll") "D3D12CreateDevice" =
      nullptr
  · simp [hm, hm2, he]
  by_cases he2 : env.GetProcAddress (env.GetModuleHandleW "dxgi.dll") "CreateDXGIFactory2" =
      nullptr
  · simp [hm, hm2, he, he2]
  by_cases ha : env.assertions_enabled = true <;>
  by_cases hk : window_klass env = 0 <;>
  by_cases hw : window_handle env = nullptr <;>
  simp [hm, hm2, he, he2, ha, hk, hw, window_initialized, DummyWindow.is_initialized,
    DummyWindow.get_handle] <;>
  split_ifs <;> simp_all

theorem get_d3d12_vmt_slots (env : Env) (a b c : Option VMT) :
    (get_d3d12_vmt env a b c).slots =
      if (get_d3d12_vmt env a b c).status = some Status.Success then
        (a.map (fun _ => d3d12_swapchain_view env), b.map (fun _ => d3d12_device_view env),
          c.map (fun _ => d3d12_command_queue_view env))
      else (a, b, c) := by
  unfold get_d3d12_vmt d3d12_swapchain_view d3d12_device_view d3d12_command_queue_view
    d3d12_swapchain d3d12_create_swapchain d3d12_command_queue
    d3d12_create_queue d3d12_factory d3d12_create_factory d3d12_device d3d12_create_device
  simp only [ctor_default_eq, assign_slot_fst]
  by_cases hm : env.GetModuleHandleW "d3d12.dll" = nullptr
  · simp [hm]
  by_cases hm2 : env.GetModuleHandleW "dxgi.dll" = nullptr
  · simp [hm, hm2]
  by_cases he : env.GetProcAddress (env.GetModuleHandleW "d3d12.dll") "D3D12CreateDevice" =
      nullptr
  · simp [hm, hm2, he]
  by_cases he2 : env.GetProcAddress (env.GetModuleHandleW "dxgi.dll") "CreateDXGIFactory2" =
      nullptr
  · simp [hm, hm2, he, he2]
  by_cases ha : env.assertions_enabled = true <;>
  by_cases hk : window_klass env = 0 <;>
  by_cases hw : window_handle env = nullptr <;>
  simp [hm, hm2, he, he2, ha, hk, hw, window_initialized, DummyWindow.is_initialized,
    DummyWindow.get_handle] <;>
  split_ifs <;> simp_all

/-! ## Events of the helpers -/

theorem mem_acquire (e : Event) (p : Ptr) :
    e ∈ acquire p ↔ p ≠ nullptr ∧ e = Event.acquire p := by
  unfold acquire
  split_ifs with h <;> simp [h]

theorem mem_ComPtr_from_raw (e : Event) (p : Ptr) :
    e ∈ ComPtr_from_raw p ↔ p ≠ nullptr ∧ e = Event.AddRef p := by
  unfold ComPtr_from_raw
  split_ifs with h <;> simp [h]

theorem mem_ComPtr_dtor (e : Event) (p : Ptr) :
    e ∈ ComPtr_dtor p ↔ p ≠ nullptr ∧ e = Event.Release p := by
  unfold ComPtr_dtor
  split_ifs with h <;> simp [h]

theorem mem_DummyWindow_dtor (e : Event) (w : DummyWindow) :
    e ∈ w.dtor ↔
      (w.window ≠ nullptr ∧ e = Event.DestroyWindow w.window) ∨
      (w.klass ≠ 0 ∧ e = Event.UnregisterClassW w.klass) := by
  unfold DummyWindow.dtor
  split_ifs with h1 h2 h2 <;> simp [h1, h2]

theorem mem_assign_slot (e : Event) (mem : Memory) (pos : Nat) (slot : Option VMT) (a : Ptr)
    (n : Nat) :
    e ∈ (assign_slot mem pos slot a n).2 ↔ slot.isSome = true ∧ e = Event.copy_out pos a n := by
  cases slot <;> simp [assign_slot]

theorem get_d3d9_vmt_calls (env : Env) (a b : Option VMT) (c : NativeCall)
    (h : Event.call c ∈ (get_d3d9_vmt env a b).trace) :
    c = NativeCall.Direct3DCreate9 D3D_SDK_VERSION ∨
    c = NativeCall.CreateDevice (d3d9_object env) D3DADAPTER_DEFAULT D3DDEVTYPE_NULLREF
      (window_handle env) d3d9_behavior_flags (d3d9_params (window_handle env)) := by
  revert h
  unfold get_d3d9_vmt d3d9_object
  simp only [ctor_default_eq]
  by_cases hm : env.GetModuleHandleW "d3d9.dll" = nullptr
  · simp [hm]
  by_cases he : env.GetProcAddress (env.GetModuleHandleW "d3d9.dll") "Direct3DCreate9" = nullptr
  · simp [hm, he]
  by_cases ha : env.assertions_enabled = true <;>
  by_cases hk : window_klass env = 0 <;>
  by_cases hw : window_handle env = nullptr <;>
  by_cases hd : env.Direct3DCreate9 D3D_SDK_VERSION = nullptr <;>
  simp [hm, he, ha, hk, hw, hd, window_initialized, DummyWindow.is_initialized,
    DummyWindow.get_handle, mem_acquire, mem_ComPtr_from_raw, mem_ComPtr_dtor,
    mem_DummyWindow_dtor, mem_assign_slot]
  all_goals try split_ifs
  all_goals try simp [mem_acquire, mem_ComPtr_from_raw, mem_ComPtr_dtor, mem_DummyWindow_dtor,
    mem_assign_slot]
  all_goals tauto

theorem get_d3d10_vmt_calls (env : Env) (a b : Option VMT) (c : NativeCall)
    (h : Event.call c ∈ (get_d3d10_vmt env a b).trace) :
    c = NativeCall.D3D10CreateDeviceAndSwapChain nullptr D3D10_DRIVER_TYPE_NULL nullptr 0
      D3D10_SDK_VERSION (dxgi_desc (window_handle env)) := by
  revert h
  unfold get_d3d10_vmt
  simp only [ctor_default_eq]
  by_cases hm : env.GetModuleHandleW "d3d10.dll" = nullptr
  · simp [hm]
  by_cases he : env.GetProcAddress (env.GetModuleHandleW "d3d10.dll")
      "D3D10CreateDeviceAndSwapChain" = nullptr
  · simp [hm, he]
  by_cases ha : env.assertions_enabled = true <;>
  by_cases hk : window_klass env = 0 <;>
  by_cases hw : window_handle env = nullptr <;>
  simp [hm, he, ha, hk, hw, window_initialized, DummyWindow.is_initialized,
    DummyWindow.get_handle, mem_acquire, mem_ComPtr_from_raw, mem_ComPtr_dtor,
    mem_DummyWindow_dtor, mem_assign_slot]
  all_goals try split_ifs
  all_goals try simp [mem_acquire, mem_ComPtr_from_raw, mem_ComPtr_dtor, mem_DummyWindow_dtor,
    mem_assign_slot]

theorem get_d3d11_vmt_calls (env : Env) (a b d : Option VMT) (c : NativeCall)
    (h : Event.call c ∈ (get_d3d11_vmt env a b d).trace) :
    c = NativeCall.D3D11CreateDeviceAndSwapChain nullptr D3D_DRIVER_TYPE_NULL nullptr 0 nullptr 0
      D3D11_SDK_VERSION (dxgi_desc (window_handle env)) := by
  revert h
  unfold get_d3d11_vmt
  simp only [ctor_default_eq]
  by_cases hm : env.GetModuleHandleW "d3d11.dll" = nullptr
  · simp [hm]
  by_cases he : env.GetProcAddress (env.GetModuleHandleW "d3d11.dll")
      "D3D11CreateDeviceAndSwapChain" = nullptr
  · simp [hm, he]
  by_cases ha : env.assertions_enabled = true <;>
  by_cases hk : window_klass env = 0 <;>
  by_cases hw : window_handle env = nullptr <;>
  simp [hm, he, ha, hk, hw, window_initialized, DummyWindow.is_initialized,
    DummyWindow.get_handle, mem_acquire, mem_ComPtr_from_raw, mem_ComPtr_dtor,
    mem_DummyWindow_dtor, mem_assign_slot]
  all_goals try split_ifs
  all_goals try simp [mem_acquire, mem_ComPtr_from_raw, mem_ComPtr_dtor, mem_DummyWindow_dtor,
    mem_assign_slot]

theorem get_d3d12_vmt_calls (env : Env) (a b d : Option VMT) (c : NativeCall)
    (h : Event.call c ∈ (get_d3d12_vmt env a b d).trace) :
    c = NativeCall.D3D12CreateDevice nullptr D3D_FEATURE_LEVEL_11_0 ∨
    c = NativeCall.CreateDXGIFactory2 0 ∨
    c = NativeCall.CreateCommandQueue (d3d12_device env) {} ∨
    c = NativeCall.CreateSwapChainForHwnd (d3d12_factory env) (d3d12_command_queue env)
      (window_handle env) dxgi_desc1 nullptr nullptr := by
  revert h
  unfold get_d3d12_vmt d3d12_command_queue d3d12_create_queue d3d12_factory d3d12_create_factory d3d12_device d3d12_create_device
  simp only [ctor_default_eq]
  by_cases hm : env.GetModuleHandleW "d3d12.dll" = nullptr
  · simp [hm]
  by_cases hm2 : env.GetModuleHandleW "dxgi.dll" = nullptr
  · simp [hm, hm2]
  by_cases he : env.GetProcAddress (env.GetModuleHandleW "d3d12.dll") "D3D12CreateDevice" =
      nullptr
  · simp [hm, hm2, he]
  by_cases he2 : env.GetProcAddress (env.GetModuleHandleW "dxgi.dll") "CreateDXGIFactory2" =
      nullptr
  · simp [hm, hm2, he, he2]
  by_cases ha : env.assertions_enabled = true <;>
  by_cases hk : window_klass env = 0 <;>
  by_cases hw : window_handle env = nullptr <;>
  simp [hm, hm2, he, he2, ha, hk, hw, window_initialized, DummyWindow.is_initialized,
    DummyWindow.get_handle, mem_acquire, mem_ComPtr_from_raw, mem_ComPtr_dtor,
    mem_DummyWindow_dtor, mem_assign_slot]
  all_goals try split_ifs
  all_goals try simp [mem_acquire, mem_ComPtr_from_raw, mem_ComPtr_dtor, mem_DummyWindow_dtor,
    mem_assign_slot]
  all_goals tauto

theorem get_d3d9_vmt_copy_out (env : Env) (a b : Option VMT) (pos : Nat) (addr : Ptr) (n : Nat)
    (h : Event.copy_out pos addr n ∈ (get_d3d9_vmt env a b).trace) :
    (get_d3d9_vmt env a b).status = some Status.Success ∧
    ((pos = 0 ∧ a.isSome = true) ∨ (pos = 1 ∧ b.isSome = true)) := by
  revert h
  unfold get_d3d9_vmt
  simp only [ctor_default_eq]
  by_cases hm : env.GetModuleHandleW "d3d9.dll" = nullptr
  · simp [hm]
  by_cases he : env.GetProcAddress (env.GetModuleHandleW "d3d9.dll") "Direct3DCreate9" = nullptr
  · simp [hm, he]
  by_cases ha : env.assertions_enabled = true <;>
  by_cases hk : window_klass env = 0 <;>
  by_cases hw : window_handle env = nullptr <;>
  by_cases hd : env.Direct3DCreate9 D3D_SDK_VERSION = nullptr <;>
  simp [hm, he, ha, hk, hw, hd, window_initialized, DummyWindow.is_initialized,
    DummyWindow.get_handle, mem_acquire, mem_ComPtr_from_raw, mem_ComPtr_dtor,
    mem_DummyWindow_dtor, mem_assign_slot]
  all_goals try split_ifs
  all_goals try simp [mem_acquire, mem_ComPtr_from_raw, mem_ComPtr_dtor, mem_DummyWindow_dtor,
    mem_assign_slot]
  all_goals tauto

theorem get_d3d10_vmt_copy_out (env : Env) (a b : Option VMT) (pos : Nat) (addr : Ptr) (n : Nat)
    (h : Event.copy_out pos addr n ∈ (get_d3d10_vmt env a b).trace) :
    (get_d3d10_vmt env a b).status = some Status.Success ∧
    ((pos = 0 ∧ a.isSome = true) ∨ (pos = 1 ∧ b.isSome = true)) := by
  revert h
  unfold get_d3d10_vmt
  simp only [ctor_default_eq]
  by_cases hm : env.GetModuleHandleW "d3d10.dll" = nullptr
  · simp [hm]
  by_cases he : env.GetProcAddress (env.GetModuleHandleW "d3d10.dll")
      "D3D10CreateDeviceAndSwapChain" = nullptr
  · simp [hm, he]
  by_cases ha : env.assertions_enabled = true <;>
  by_cases hk : window_klass env = 0 <;>
  by_cases hw : window_handle env = nullptr <;>
  simp [hm, he, ha, hk, hw, window_initialized, DummyWindow.is_initialized,
    DummyWindow.get_handle, mem_acquire, mem_ComPtr_from_raw, mem_ComPtr_dtor,
    mem_DummyWindow_dtor, mem_assign_slot]
  all_goals try split_ifs
  all_goals try simp [mem_acquire, mem_ComPtr_from_raw, mem_ComPtr_dtor, mem_DummyWindow_dtor,
    mem_assign_slot]
  all_goals tauto

theorem get_d3d11_vmt_copy_out (env : Env) (a b d : Option VMT) (pos : Nat) (addr : Ptr)
    (n : Nat) (h : Event.copy_out pos addr n ∈ (get_d3d11_vmt env a b d).trace) :
    (get_d3d11_vmt env a b d).status = some Status.Success ∧
    ((pos = 0 ∧ a.isSome = true) ∨ (pos = 1 ∧ b.isSome = true) ∨
      (pos = 2 ∧ d.isSome = true)) := by
  revert h
  unfold get_d3d11_vmt
  simp only [ctor_default_eq]
  by_cases hm : env.GetModuleHandleW "d3d11.dll" = nullptr
  · simp [hm]
  by_cases he : env.GetProcAddress (env.GetModuleHandleW "d3d11.dll")
      "D3D11CreateDeviceAndSwapChain" = nullptr
  · simp [hm, he]
  by_cases ha : env.assertions_enabled = true <;>
  by_cases hk : window_klass env = 0 <;>
  by_cases hw : window_handle env = nullptr <;>
  simp [hm, he, ha, hk, hw, window_initialized, DummyWindow.is_initialized,
    DummyWindow.get_handle, mem_acquire, mem_ComPtr_from_raw, mem_ComPtr_dtor,
    mem_DummyWindow_dtor, mem_assign_slot]
  all_goals try split_ifs
  all_goals try simp [mem_acquire, mem_ComPtr_from_raw, mem_ComPtr_dtor, mem_DummyWindow_dtor,
    mem_assign_slot]
  all_goals tauto

theorem get_d3d12_vmt_copy_out (env : Env) (a b d : Option VMT) (pos : Nat) (addr : Ptr)
    (n : Nat) (h : Event.copy_out pos addr n ∈ (get_d3d12_vmt env a b d).trace) :
    (get_d3d12_vmt env a b d).status = some Status.Success ∧
    ((pos = 0 ∧ a.isSome = true) ∨ (pos = 1 ∧ b.isSome = true) ∨
      (pos = 2 ∧ d.isSome = true)) := by
  revert h
  unfold get_d3d12_vmt
  simp only [ctor_default_eq]
  by_cases hm : env.GetModuleHandleW "d3d12.dll" = nullptr
  · simp [hm]
  by_cases hm2 : env.GetModuleHandleW "dxgi.dll" = nullptr
  · simp [hm, hm2]
  by_cases he : env.GetProcAddress (env.GetModuleHandleW "d3d12.dll") "D3D12CreateDevice" =
      nullptr
  · simp [hm, hm2, he]
  by_cases he2 : env.GetProcAddress (env.GetModuleHandleW "dxgi.dll") "CreateDXGIFactory2" =
      nullptr
  · simp [hm, hm2, he, he2]
  by_cases ha : env.assertions_enabled = true <;>
  by_cases hk : window_klass env = 0 <;>
  by_cases hw : window_handle env = nullptr <;>
  simp [hm, hm2, he, he2, ha, hk, hw, window_initialized, DummyWindow.is_initialized,
    DummyWindow.get_handle, mem_acquire, mem_ComPtr_from_raw, mem_ComPtr_dtor,
    mem_DummyWindow_dtor, mem_assign_slot]
  all_goals try split_ifs
  all_goals try simp [mem_acquire, mem_ComPtr_from_raw, mem_ComPtr_dtor, mem_DummyWindow_dtor,
    mem_assign_slot]
  all_goals tauto

/-! ## Reference counts -/

theorem refs_nil (obj : Ptr) : outstanding_refs [] obj = 0 := rfl

theorem refs_append (l1 l2 : List Event) (obj : Ptr) :
    outstanding_refs (l1 ++ l2) obj = outstanding_refs l1 obj + outstanding_refs l2 obj := by
  simp [outstanding_refs, List.map_append, List.sum_append]

theorem refs_cons (e : Event) (l : List Event) (obj : Ptr) :
    outstanding_refs (e :: l) obj = ref_weight obj e + outstanding_refs l obj := by
  simp [outstanding_refs]

theorem refs_acquire (p obj : Ptr) :
    outstanding_refs (acquire p) obj = if p ≠ nullptr ∧ p = obj then 1 else 0 := by
  unfold acquire
  by_cases h : p = nullptr
  · simp [h, outstanding_refs]
  · by_cases h2 : p = obj
    · subst h2
      simp [h, outstanding_refs, ref_weight]
    · simp [h, h2, outstanding_refs, ref_weight]

theorem refs_from_raw (p obj : Ptr) :
    outstanding_refs (ComPtr_from_raw p) obj = if p ≠ nullptr ∧ p = obj then 1 else 0 := by
  unfold ComPtr_from_raw
  by_cases h : p = nullptr
  · simp [h, outstanding_refs]
  · by_cases h2 : p = obj
    · subst h2
      simp [h, outstanding_refs, ref_weight]
    · simp [h, h2, outstanding_refs, ref_weight]

theorem refs_dtor (p obj : Ptr) :
    outstanding_refs (ComPtr_dtor p) obj = if p ≠ nullptr ∧ p = obj then -1 else 0 := by
  unfold ComPtr_dtor
  by_cases h : p = nullptr
  · simp [h, outstanding_refs]
  · by_cases h2 : p = obj
    · subst h2
      simp [h, outstanding_refs, ref_weight]
    · simp [h, h2, outstanding_refs, ref_weight]

theorem refs_window_dtor (w : DummyWindow) (obj : Ptr) :
    outstanding_refs w.dtor obj = 0 := by
  unfold DummyWindow.dtor
  split_ifs <;> simp [outstanding_refs, ref_weight]

theorem refs_assign_slot (mem : Memory) (pos : Nat) (slot : Option VMT) (a : Ptr) (n : Nat)
    (obj : Ptr) : outstanding_refs (assign_slot mem pos slot a n).2 obj = 0 := by
  cases slot <;> simp [assign_slot, outstanding_refs, ref_weight]


/-- In every environment the version-9 procedure ends with exactly one reference
still held on the `IDirect3D9` object whenever it obtained one, and none on any
other object. -/
theorem get_d3d9_vmt_refs (env : Env) (a b : Option VMT) (obj : Ptr) :
    outstanding_refs (get_d3d9_vmt env a b).trace obj =
      if d3d9_module_present env = true ∧ d3d9_entry_present env = true ∧
          window_initialized env = true ∧ d3d9_object env ≠ nullptr ∧ obj = d3d9_object env
      then 1 else 0 := by
  unfold get_d3d9_vmt d3d9_module_present d3d9_entry_present d3d9_object
  simp only [ctor_default_eq]
  by_cases hm : env.GetModuleHandleW "d3d9.dll" = nullptr
  · simp [hm, refs_nil]
  by_cases he : env.GetProcAddress (env.GetModuleHandleW "d3d9.dll") "Direct3DCreate9" = nullptr
  · simp [hm, he, refs_nil]
  by_cases ha : env.assertions_enabled = true <;>
  by_cases hk : window_klass env = 0 <;>
  by_cases hw : window_handle env = nullptr <;>
  by_cases hd : env.Direct3DCreate9 D3D_SDK_VERSION = nullptr <;>
  simp [hm, he, ha, hk, hw, hd, window_initialized, DummyWindow.is_initialized,
    DummyWindow.get_handle]
  all_goals try split_ifs
  all_goals simp only [refs_append, refs_cons, ref_weight, refs_acquire, refs_from_raw, refs_dtor,
    refs_window_dtor, refs_assign_slot, refs_nil]
  all_goals try split_ifs
  all_goals first | omega | simp_all

/-- In every environment the version-10 procedure ends with no reference held on
any object. -/
theorem get_d3d10_vmt_refs (env : Env) (a b : Option VMT) (obj : Ptr) :
    outstanding_refs (get_d3d10_vmt env a b).trace obj = 0 := by
  unfold get_d3d10_vmt
  simp only [ctor_default_eq]
  by_cases hm : env.GetModuleHandleW "d3d10.dll" = nullptr
  · simp [hm, refs_nil]
  by_cases he : env.GetProcAddress (env.GetModuleHandleW "d3d10.dll")
      "D3D10CreateDeviceAndSwapChain" = nullptr
  · simp [hm, he, refs_nil]
  by_cases ha : env.assertions_enabled = true <;>
  by_cases hk : window_klass env = 0 <;>
  by_cases hw : window_handle env = nullptr <;>
  simp [hm, he, ha, hk, hw, window_initialized, DummyWindow.is_initialized,
    DummyWindow.get_handle]
  all_goals try split_ifs
  all_goals simp only [refs_append, refs_cons, ref_weight, refs_acquire, refs_from_raw, refs_dtor,
    refs_window_dtor, refs_assign_slot, refs_nil]
  all_goals try split_ifs
  all_goals omega

/-- In every environment the version-11 procedure ends with no reference held on
any object. -/
theorem get_d3d11_vmt_refs (env : Env) (a b d : Option VMT) (obj : Ptr) :
    outstanding_refs (get_d3d11_vmt env a b d).trace obj = 0 := by
  unfold get_d3d11_vmt
  simp only [ctor_default_eq]
  by_cases hm : env.GetModuleHandleW "d3d11.dll" = nullptr
  · simp [hm, refs_nil]
  by_cases he : env.GetProcAddress (env.GetModuleHandleW "d3d11.dll")
      "D3D11CreateDeviceAndSwapChain" = nullptr
  · simp [hm, he, refs_nil]
  by_cases ha : env.assertions_enabled = true <;>
  by_cases hk : window_klass env = 0 <;>
  by_cases hw : window_handle env = nullptr <;>
  simp [hm, he, ha, hk, hw, window_initialized, DummyWindow.is_initialized,
    DummyWindow.get_handle]
  all_goals try split_ifs
  all_goals simp only [refs_append, refs_cons, ref_weight, refs_acquire, refs_from_raw, refs_dtor,
    refs_window_dtor, refs_assign_slot, refs_nil]
  all_goals try split_ifs
  all_goals omega

/-- In every environment the version-12 procedure ends with no reference held on
any object. -/
theorem get_d3d12_vmt_refs (env : Env) (a b d : Option VMT) (obj : Ptr) :
    outstanding_refs (get_d3d12_vmt env a b d).trace obj = 0 := by
  unfold get_d3d12_vmt
  simp only [ctor_default_eq]
  by_cases hm : env.GetModuleHandleW "d3d12.dll" = nullptr
  · simp [hm, refs_nil]
  by_cases hm2 : env.GetModuleHandleW "dxgi.dll" = nullptr
  · simp [hm, hm2, refs_nil]
  by_cases he : env.GetProcAddress (env.GetModuleHandleW "d3d12.dll") "D3D12CreateDevice" =
      nullptr
  · simp [hm, hm2, he, refs_nil]
  by_cases he2 : env.GetProcAddress (env.GetModuleHandleW "dxgi.dll") "CreateDXGIFactory2" =
      nullptr
  · simp [hm, hm2, he, he2, refs_nil]
  by_cases ha : env.assertions_enabled = true <;>
  by_cases hk : window_klass env = 0 <;>
  by_cases hw : window_handle env = nullptr <;>
  simp [hm, hm2, he, he2, ha, hk, hw, window_initialized, DummyWindow.is_initialized,
    DummyWindow.get_handle]
  all_goals try split_ifs
  all_goals simp only [refs_append, refs_cons, ref_weight, refs_acquire, refs_from_raw, refs_dtor,
    refs_window_dtor, refs_assign_slot, refs_nil]
  all_goals try split_ifs
  all_goals omega

/-! ## Native calls of a trace -/

theorem calls_nil : native_calls [] = [] := rfl

theorem calls_append (l1 l2 : List Event) :
    native_calls (l1 ++ l2) = native_calls l1 ++ native_calls l2 := by
  simp [native_calls, List.filterMap_append]

theorem calls_cons_call (c : NativeCall) (l : List Event) :
    native_calls (Event.call c :: l) = c :: native_calls l := by
  simp [native_calls, List.filterMap_cons]

theorem calls_cons_register (n : String) (k : Nat) (l : List Event) :
    native_calls (Event.RegisterClassExW n k :: l) = native_calls l := by
  simp [native_calls, List.filterMap_cons]

theorem calls_cons_window (k : Nat) (h : Ptr) (l : List Event) :
    native_calls (Event.CreateWindowW k h :: l) = native_calls l := by
  simp [native_calls, List.filterMap_cons]

theorem calls_cons_abort (l : List Event) :
    native_calls (Event.abort :: l) = native_calls l := by
  simp [native_calls, List.filterMap_cons]

theorem calls_acquire (p : Ptr) : native_calls (acquire p) = [] := by
  unfold acquire
  split_ifs <;> simp [native_calls]

theorem calls_from_raw (p : Ptr) : native_calls (ComPtr_from_raw p) = [] := by
  unfold ComPtr_from_raw
  split_ifs <;> simp [native_calls]

theorem calls_dtor (p : Ptr) : native_calls (ComPtr_dtor p) = [] := by
  unfold ComPtr_dtor
  split_ifs <;> simp [native_calls]

theorem calls_window_dtor (w : DummyWindow) : native_calls w.dtor = [] := by
  unfold DummyWindow.dtor
  split_ifs <;> simp [native_calls]

theorem calls_assign_slot (mem : Memory) (pos : Nat) (slot : Option VMT) (a : Ptr) (n : Nat) :
    native_calls (assign_slot mem pos slot a n).2 = [] := by
  cases slot <;> simp [assign_slot, native_calls]

theorem get_d3d9_vmt_native_calls (env : Env) (a b : Option VMT) :
    native_calls (get_d3d9_vmt env a b).trace =
      if d3d9_module_present env = true ∧ d3d9_entry_present env = true ∧
          window_initialized env = true then
        NativeCall.Direct3DCreate9 D3D_SDK_VERSION ::
          (if d3d9_object env = nullptr then []
           else [NativeCall.CreateDevice (d3d9_object env) D3DADAPTER_DEFAULT D3DDEVTYPE_NULLREF
             (window_handle env) d3d9_behavior_flags (d3d9_params (window_handle env))])
      else [] := by
  unfold get_d3d9_vmt d3d9_module_present d3d9_entry_present d3d9_object
  simp only [ctor_default_eq]
  by_cases hm : env.GetModuleHandleW "d3d9.dll" = nullptr
  · simp [hm, calls_nil]
  by_cases he : env.GetProcAddress (env.GetModuleHandleW "d3d9.dll") "Direct3DCreate9" = nullptr
  · simp [hm, he, calls_nil]
  by_cases ha : env.assertions_enabled = true <;>
  by_cases hk : window_klass env = 0 <;>
  by_cases hw : window_handle env = nullptr <;>
  by_cases hd : env.Direct3DCreate9 D3D_SDK_VERSION = nullptr <;>
  simp [hm, he, ha, hk, hw, hd, window_initialized, DummyWindow.is_initialized,
    DummyWindow.get_handle]
  all_goals try split_ifs
  all_goals simp_all [calls_append, calls_cons_call, calls_cons_register, calls_cons_window,
    calls_cons_abort, calls_acquire, calls_from_raw, calls_dtor, calls_window_dtor,
    calls_assign_slot, calls_nil]

theorem get_d3d10_vmt_native_calls (env : Env) (a b : Option VMT) :
    native_calls (get_d3d10_vmt env a b).trace =
      if d3d10_module_present env = true ∧ d3d10_entry_present env = true ∧
          window_initialized env = true then
        [NativeCall.D3D10CreateDeviceAndSwapChain nullptr D3D10_DRIVER_TYPE_NULL nullptr 0
          D3D10_SDK_VERSION (dxgi_desc (window_handle env))]
      else [] := by
  unfold get_d3d10_vmt d3d10_module_present d3d10_entry_present
  simp only [ctor_default_eq]
  by_cases hm : env.GetModuleHandleW "d3d10.dll" = nullptr
  · simp [hm, calls_nil]
  by_cases he : env.GetProcAddress (env.GetModuleHandleW "d3d10.dll")
      "D3D10CreateDeviceAndSwapChain" = nullptr
  · simp [hm, he, calls_nil]
  by_cases ha : env.assertions_enabled = true <;>
  by_cases hk : window_klass env = 0 <;>
  by_cases hw : window_handle env = nullptr <;>
  simp [hm, he, ha, hk, hw, window_initialized, DummyWindow.is_initialized,
    DummyWindow.get_handle]
  all_goals try split_ifs
  all_goals simp_all [calls_append, calls_cons_call, calls_cons_register, calls_cons_window,
    calls_cons_abort, calls_acquire, calls_from_raw, calls_dtor, calls_window_dtor,
    calls_assign_slot, calls_nil]

theorem get_d3d11_vmt_native_calls (env : Env) (a b d : Option VMT) :
    native_calls (get_d3d11_vmt env a b d).trace =
      if d3d11_module_present env = true ∧ d3d11_entry_present env = true ∧
          window_initialized env = true then
        [NativeCall.D3D11CreateDeviceAndSwapChain nullptr D3D_DRIVER_TYPE_NULL nullptr 0 nullptr 0
          D3D11_SDK_VERSION (dxgi_desc (window_handle env))]
      else [] := by
  unfold get_d3d11_vmt d3d11_module_present d3d11_entry_present
  simp only [ctor_default_eq]
  by_cases hm : env.GetModuleHandleW "d3d11.dll" = nullptr
  · simp [hm, calls_nil]
  by_cases he : env.GetProcAddress (env.GetModuleHandleW "d3d11.dll")
      "D3D11CreateDeviceAndSwapChain" = nullptr
  · simp [hm, he, calls_nil]
  by_cases ha : env.assertions_enabled = true <;>
  by_cases hk : window_klass env = 0 <;>
  by_cases hw : window_handle env = nullptr <;>
  simp [hm, he, ha, hk, hw, window_initialized, DummyWindow.is_initialized,
    DummyWindow.get_handle]
  all_goals try split_ifs
  all_goals simp_all [calls_append, calls_cons_call, calls_cons_register, calls_cons_window,
    calls_cons_abort, calls_acquire, calls_from_raw, calls_dtor, calls_window_dtor,
    calls_assign_slot, calls_nil]

theorem get_d3d12_vmt_native_calls (env : Env) (a b d : Option VMT) :
    native_calls (get_d3d12_vmt env a b d).trace =
      if d3d12_module_present env = true ∧ d3d12_entry_present env = true ∧
          window_initialized env = true then
        NativeCall.D3D12CreateDevice nullptr D3D_FEATURE_LEVEL_11_0 ::
          (if FAILED (d3d12_create_device env).1 = true then []
           else NativeCall.CreateDXGIFactory2 0 ::
            (if FAILED (d3d12_create_factory env).1 = true then []
             else NativeCall.CreateCommandQueue (d3d12_device env) {} ::
              (if FAILED (d3d12_create_queue env).1 = true then []
               else [NativeCall.CreateSwapChainForHwnd (d3d12_factory env)
                 (d3d12_command_queue env) (window_handle env) dxgi_desc1 nullptr nullptr])))
      else [] := by
  unfold get_d3d12_vmt d3d12_module_present d3d12_entry_present d3d12_command_queue
    d3d12_create_queue d3d12_factory d3d12_create_factory d3d12_device d3d12_create_device
  simp only [ctor_default_eq]
  by_cases hm : env.GetModuleHandleW "d3d12.dll" = nullptr
  · simp [hm, calls_nil]
  by_cases hm2 : env.GetModuleHandleW "dxgi.dll" = nullptr
  · simp [hm, hm2, calls_nil]
  by_cases he : env.GetProcAddress (env.GetModuleHandleW "d3d12.dll") "D3D12CreateDevice" =
      nullptr
  · simp [hm, hm2, he, calls_nil]
  by_cases he2 : env.GetProcAddress (env.GetModuleHandleW "dxgi.dll") "CreateDXGIFactory2" =
      nullptr
  · simp [hm, hm2, he, he2, calls_nil]
  by_cases ha : env.assertions_enabled = true <;>
  by_cases hk : window_klass env = 0 <;>
  by_cases hw : window_handle env = nullptr <;>
  simp [hm, hm2, he, he2, ha, hk, hw, window_initialized, DummyWindow.is_initialized,
    DummyWindow.get_handle]
  all_goals try split_ifs
  all_goals simp_all [calls_append, calls_cons_call, calls_cons_register, calls_cons_window,
    calls_cons_abort, calls_acquire, calls_from_raw, calls_dtor, calls_window_dtor,
    calls_assign_slot, calls_nil]

/-! ## Shared facts about views and statuses -/

theorem ctor_is_view_of (mem : Memory) (obj : Ptr) (K : Nat) :
    is_view_of mem (VMT.ctor mem (mem obj 0) K) obj K := by
  refine ⟨?_, ?_, ?_⟩
  · unfold VMT.ctor VMT.get_methods_count
    by_cases h : K = 0 <;> simp [h]
  · intro Index hlt
    have hK : K ≠ 0 := by omega
    have hge : ¬ (K ≤ Index) := by omega
    simp [VMT.ctor, VMT.get_method, hK, hge, hlt, List.getElem?_map, List.getElem?_range]
  · intro Index hle
    unfold VMT.ctor VMT.get_method
    by_cases h : K = 0 <;> simp [h, hle]

theorem slot_holds_view_map (mem : Memory) (slot : Option VMT) (obj : Ptr) (K : Nat) :
    slot_holds_view mem slot (slot.map (fun _ => VMT.ctor mem (mem obj 0) K)) obj K := by
  cases slot with
  | none => simp [slot_holds_view]
  | some old => exact ⟨_, rfl, ctor_is_view_of mem obj K⟩

theorem expected_status_follows (env : Env) (m e c : Bool) :
    follows_first_failing_check env (expected_status env m e c) m e c := by
  unfold follows_first_failing_check aborts_in_window expected_status first_failing_check
  cases m <;> cases e <;> cases c <;> cases hw : window_initialized env <;>
    cases ha : env.assertions_enabled <;> simp

/-! ## The claims -/

/-- C3 (amended): when the module of a procedure is not loaded (for version 12:
`d3d12.dll` or `dxgi.dll`), the call returns `RendererModuleNotFound`, does
nothing else, and leaves every output slot exactly as it was before the call;
a view that was empty before the call is empty after it. -/
theorem C3_module_absent_leaves_slots (env : Env) :
    (env.GetModuleHandleW "d3d9.dll" = nullptr → ∀ a b,
      (get_d3d9_vmt env a b).status = some Status.RendererModuleNotFound ∧
      (get_d3d9_vmt env a b).slots = (a, b) ∧ (get_d3d9_vmt env a b).trace = []) ∧
    (env.GetModuleHandleW "d3d10.dll" = nullptr → ∀ a b,
      (get_d3d10_vmt env a b).status = some Status.RendererModuleNotFound ∧
      (get_d3d10_vmt env a b).slots = (a, b) ∧ (get_d3d10_vmt env a b).trace = []) ∧
    (env.GetModuleHandleW "d3d11.dll" = nullptr → ∀ a b c,
      (get_d3d11_vmt env a b c).status = some Status.RendererModuleNotFound ∧
      (get_d3d11_vmt env a b c).slots = (a, b, c) ∧ (get_d3d11_vmt env a b c).trace = []) ∧
    (env.GetModuleHandleW "d3d12.dll" = nullptr ∨ env.GetModuleHandleW "dxgi.dll" = nullptr →
      ∀ a b c,
      (get_d3d12_vmt env a b c).status = some Status.RendererModuleNotFound ∧
      (get_d3d12_vmt env a b c).slots = (a, b, c) ∧ (get_d3d12_vmt env a b c).trace = []) := by
  refine ⟨?_, ?_, ?_, ?_⟩
  · intro h a b
    simp [get_d3d9_vmt, h]
  · intro h a b
    simp [get_d3d10_vmt, h]
  · intro h a b c
    simp [get_d3d11_vmt, h]
  · intro h a b c
    by_cases h1 : env.GetModuleHandleW "d3d12.dll" = nullptr
    · simp [get_d3d12_vmt, h1]
    · have h2 : env.GetModuleHandleW "dxgi.dll" = nullptr := by tauto
      simp [get_d3d12_vmt, h1, h2]

/-- C3 (witness): with no module loaded, two supplied empty slots stay empty. -/
theorem C3_module_absent_witness :
    (get_d3d9_vmt no_module_env (some {}) (some {})).status =
      some Status.RendererModuleNotFound ∧
    (get_d3d9_vmt no_module_env (some {}) (some {})).slots = (some {}, some {}) ∧
    (get_d3d9_vmt no_module_env (some {}) (some {})).trace = [] :=
  (C3_module_absent_leaves_slots no_module_env).1 rfl (some {}) (some {})

/-- C3 (counterexample): with no module loaded, a slot that held a three-entry
view before the call still holds three entries after it, so it is not empty. -/
theorem C3_counterexample_slot_not_emptied :
    (get_d3d9_vmt no_module_env (some (VMT.ctor sample_mem 100 3)) none).status =
      some Status.RendererModuleNotFound ∧
    (get_d3d9_vmt no_module_env (some (VMT.ctor sample_mem 100 3)) none).slots.1.map
      VMT.get_methods_count = some 3 ∧
    (get_d3d9_vmt no_module_env (some (VMT.ctor sample_mem 100 3)) none).slots.1.map
      VMT.get_methods_count ≠ some 0 := by
  decide

/-- C4 (amended): in each procedure the returned status is decided by the first
check that fails, in the order module, entry point, hidden window, native
creation (`RendererModuleNotFound`, `UnknownError`, `DummyWindowInitFailed`,
`D3DError`), and is `Success` exactly when all four pass, with one exception:
when module and entry point are both found, `assert` is active and the window
class or the window is not created, the `assert` in the `DummyWindow`
constructor aborts the process and no status is returned. -/
theorem C4_status_follows_first_failing_check (env : Env) :
    (∀ a b, follows_first_failing_check env (get_d3d9_vmt env a b).status
      (d3d9_module_present env) (d3d9_entry_present env) (d3d9_creation_ok env)) ∧
    (∀ a b, follows_first_failing_check env (get_d3d10_vmt env a b).status
      (d3d10_module_present env) (d3d10_entry_present env) (d3d10_creation_ok env)) ∧
    (∀ a b c, follows_first_failing_check env (get_d3d11_vmt env a b c).status
      (d3d11_module_present env) (d3d11_entry_present env) (d3d11_creation_ok env)) ∧
    (∀ a b c, follows_first_failing_check env (get_d3d12_vmt env a b c).status
      (d3d12_module_present env) (d3d12_entry_present env) (d3d12_creation_ok env)) := by
  refine ⟨?_, ?_, ?_, ?_⟩
  · intro a b
    rw [get_d3d9_vmt_status]
    exact expected_status_follows env _ _ _
  · intro a b
    rw [get_d3d10_vmt_status]
    exact expected_status_follows env _ _ _
  · intro a b c
    rw [get_d3d11_vmt_status]
    exact expected_status_follows env _ _ _
  · intro a b c
    rw [get_d3d12_vmt_status]
    exact expected_status_follows env _ _ _

/-- C4 (witness): one environment for each line of the decision table. All checks
pass: `Success`; `CreateDevice` fails: `D3DError`; the window is not created
and assertions are compiled out: `DummyWindowInitFailed`; the entry point is
missing, also where `assert` is active and the window would fail:
`UnknownError`; the module is missing, there too: `RendererModuleNotFound`;
`assert` active and the window class not registered: no status. -/
theorem C4_status_witness :
    (get_d3d9_vmt sample_env none none).status = some Status.Success ∧
    (get_d3d9_vmt device_failure_env none none).status = some Status.D3DError ∧
    (get_d3d9_vmt no_window_env none none).status = some Status.DummyWindowInitFailed ∧
    (get_d3d9_vmt assert_no_entry_env none none).status = some Status.UnknownError ∧
    (get_d3d9_vmt assert_no_module_env none none).status =
      some Status.RendererModuleNotFound ∧
    (get_d3d9_vmt assert_env none none).status = none ∧
    (get_d3d12_vmt sample_env none none none).status = some Status.Success ∧
    (get_d3d12_vmt assert_no_entry_env none none none).status = some Status.UnknownError :=
  ⟨((C4_status_follows_first_failing_check sample_env).1 none none).1 (by unfold aborts_in_window; decide),
   ((C4_status_follows_first_failing_check device_failure_env).1 none none).1 (by unfold aborts_in_window; decide),
   ((C4_status_follows_first_failing_check no_window_env).1 none none).1 (by unfold aborts_in_window; decide),
   ((C4_status_follows_first_failing_check assert_no_entry_env).1 none none).1 (by unfold aborts_in_window; decide),
   ((C4_status_follows_first_failing_check assert_no_module_env).1 none none).1 (by unfold aborts_in_window; decide),
   ((C4_status_follows_first_failing_check assert_env).1 none none).2.1 (by unfold aborts_in_window; decide),
   ((C4_status_follows_first_failing_check sample_env).2.2.2 none none none).1 (by unfold aborts_in_window; decide),
   ((C4_status_follows_first_failing_check assert_no_entry_env).2.2.2 none none none).1
     (by unfold aborts_in_window; decide)⟩

/-- C4 (counterexample): module and entry point are found, the window class is
not registered, so the first failing check names `DummyWindowInitFailed`; with
`assert` active the procedure returns no status at all. -/
theorem C4_counterexample_assert_aborts :
    d3d9_module_present assert_env = true ∧ d3d9_entry_present assert_env = true ∧
    window_initialized assert_env = false ∧
    first_failing_check (d3d9_module_present assert_env) (d3d9_entry_present assert_env)
      (window_initialized assert_env) (d3d9_creation_ok assert_env) =
      Status.DummyWindowInitFailed ∧
    (get_d3d9_vmt assert_env none none).status = none ∧
    (get_d3d9_vmt assert_env none none).status ≠ some Status.DummyWindowInitFailed := by
  decide

/-- C5: each procedure returns `Success` whenever its four checks pass, and
whenever it returns `Success` every supplied output slot holds a view of the
first `K` entries of the table that the first word of the corresponding object
points to, with `K` = 17 and 119 (version 9: core interface, device), 18 and 98
(version 10: swap chain, device), 18, 43 and 115 (version 11: swap chain,
device, context), 29, 44 and 19 (version 12: swap chain, device, command
queue). -/
theorem C5_success_slots_hold_views (env : Env) :
    (∀ a b,
      (d3d9_module_present env = true ∧ d3d9_entry_present env = true ∧
        window_initialized env = true ∧ d3d9_creation_ok env = true →
        (get_d3d9_vmt env a b).status = some Status.Success) ∧
      ((get_d3d9_vmt env a b).status = some Status.Success →
        slot_holds_view env.mem a (get_d3d9_vmt env a b).slots.1 (d3d9_object env) 17 ∧
        slot_holds_view env.mem b (get_d3d9_vmt env a b).slots.2 (d3d9_device env) 119)) ∧
    (∀ a b,
      (d3d10_module_present env = true ∧ d3d10_entry_present env = true ∧
        window_initialized env = true ∧ d3d10_creation_ok env = true →
        (get_d3d10_vmt env a b).status = some Status.Success) ∧
      ((get_d3d10_vmt env a b).status = some Status.Success →
        slot_holds_view env.mem a (get_d3d10_vmt env a b).slots.1 (d3d10_swapchain env) 18 ∧
        slot_holds_view env.mem b (get_d3d10_vmt env a b).slots.2 (d3d10_device env) 98)) ∧
    (∀ a b c,
      (d3d11_module_present env = true ∧ d3d11_entry_present env = true ∧
        window_initialized env = true ∧ d3d11_creation_ok env = true →
        (get_d3d11_vmt env a b c).status = some Status.Success) ∧
      ((get_d3d11_vmt env a b c).status = some Status.Success →
        slot_holds_view env.mem a (get_d3d11_vmt env a b c).slots.1 (d3d11_swapchain env) 18 ∧
        slot_holds_view env.mem b (get_d3d11_vmt env a b c).slots.2.1 (d3d11_device env) 43 ∧
        slot_holds_view env.mem c (get_d3d11_vmt env a b c).slots.2.2
          (d3d11_context env) 115)) ∧
    (∀ a b c,
      (d3d12_module_present env = true ∧ d3d12_entry_present env = true ∧
        window_initialized env = true ∧ d3d12_creation_ok env = true →
        (get_d3d12_vmt env a b c).status = some Status.Success) ∧
      ((get_d3d12_vmt env a b c).status = some Status.Success →
        slot_holds_view env.mem a (get_d3d12_vmt env a b c).slots.1 (d3d12_swapchain env) 29 ∧
        slot_holds_view env.mem b (get_d3d12_vmt env a b c).slots.2.1 (d3d12_device env) 44 ∧
        slot_holds_view env.mem c (get_d3d12_vmt env a b c).slots.2.2
          (d3d12_command_queue env) 19)) := by
  refine ⟨?_, ?_, ?_, ?_⟩
  · intro a b
    refine ⟨fun hc => ?_, fun h => ?_⟩
    · rw [get_d3d9_vmt_status]
      exact (expected_status_follows env _ _ _).2.2.2 hc
    · rw [get_d3d9_vmt_slots, if_pos h]
      exact ⟨slot_holds_view_map _ _ _ _, slot_holds_view_map _ _ _ _⟩
  · intro a b
    refine ⟨fun hc => ?_, fun h => ?_⟩
    · rw [get_d3d10_vmt_status]
      exact (expected_status_follows env _ _ _).2.2.2 hc
    · rw [get_d3d10_vmt_slots, if_pos h]
      exact ⟨slot_holds_view_map _ _ _ _, slot_holds_view_map _ _ _ _⟩
  · intro a b c
    refine ⟨fun hc => ?_, fun h => ?_⟩
    · rw [get_d3d11_vmt_status]
      exact (expected_status_follows env _ _ _).2.2.2 hc
    · rw [get_d3d11_vmt_slots, if_pos h]
      exact ⟨slot_holds_view_map _ _ _ _, slot_holds_view_map _ _ _ _,
        slot_holds_view_map _ _ _ _⟩
  · intro a b c
    refine ⟨fun hc => ?_, fun h => ?_⟩
    · rw [get_d3d12_vmt_status]
      exact (expected_status_follows env _ _ _).2.2.2 hc
    · rw [get_d3d12_vmt_slots, if_pos h]
      exact ⟨slot_holds_view_map _ _ _ _, slot_holds_view_map _ _ _ _,
        slot_holds_view_map _ _ _ _⟩

/-- C5 (witness): in the sample environment each of the four procedures, called
with every slot supplied, returns `Success` and leaves in its slots views of
17 and 119, of 18 and 98, of 18, 43 and 115, and of 29, 44 and 19 entries. -/
theorem C5_success_witness :
    ((get_d3d9_vmt sample_env (some {}) (some {})).status = some Status.Success ∧
      slot_holds_view sample_env.mem (some {})
        (get_d3d9_vmt sample_env (some {}) (some {})).slots.1 (d3d9_object sample_env) 17 ∧
      slot_holds_view sample_env.mem (some {})
        (get_d3d9_vmt sample_env (some {}) (some {})).slots.2 (d3d9_device sample_env) 119) ∧
    ((get_d3d10_vmt sample_env (some {}) (some {})).status = some Status.Success ∧
      slot_holds_view sample_env.mem (some {})
        (get_d3d10_vmt sample_env (some {}) (some {})).slots.1 (d3d10_swapchain sample_env) 18 ∧
      slot_holds_view sample_env.mem (some {})
        (get_d3d10_vmt sample_env (some {}) (some {})).slots.2 (d3d10_device sample_env) 98) ∧
    ((get_d3d11_vmt sample_env (some {}) (some {}) (some {})).status = some Status.Success ∧
      slot_holds_view sample_env.mem (some {})
        (get_d3d11_vmt sample_env (some {}) (some {}) (some {})).slots.1
        (d3d11_swapchain sample_env) 18 ∧
      slot_holds_view sample_env.mem (some {})
        (get_d3d11_vmt sample_env (some {}) (some {}) (some {})).slots.2.1
        (d3d11_device sample_env) 43 ∧
      slot_holds_view sample_env.mem (some {})
        (get_d3d11_vmt sample_env (some {}) (some {}) (some {})).slots.2.2
        (d3d11_context sample_env) 115) ∧
    ((get_d3d12_vmt sample_env (some {}) (some {}) (some {})).status = some Status.Success ∧
      slot_holds_view sample_env.mem (some {})
        (get_d3d12_vmt sample_env (some {}) (some {}) (some {})).slots.1
        (d3d12_swapchain sample_env) 29 ∧
      slot_holds_view sample_env.mem (some {})
        (get_d3d12_vmt sample_env (some {}) (some {}) (some {})).slots.2.1
        (d3d12_device sample_env) 44 ∧
      slot_holds_view sample_env.mem (some {})
        (get_d3d12_vmt sample_env (some {}) (some {}) (some {})).slots.2.2
        (d3d12_command_queue sample_env) 19) ∧
    (get_d3d9_vmt sample_env (some {}) (some {})).slots.1.map VMT.get_methods_count = some 17 ∧
    (get_d3d9_vmt sample_env (some {}) (some {})).slots.2.map VMT.get_methods_count = some 119 ∧
    (get_d3d9_vmt sample_env (some {}) (some {})).slots.2.map (fun v => v.get_method 42) =
      some (some 0x502C) ∧
    (get_d3d11_vmt sample_env (some {}) (some {}) (some {})).slots.2.2.map
      VMT.get_methods_count = some 115 :=
  ⟨⟨((C5_success_slots_hold_views sample_env).1 (some {}) (some {})).1 (by decide),
     ((C5_success_slots_hold_views sample_env).1 (some {}) (some {})).2
       (((C5_success_slots_hold_views sample_env).1 (some {}) (some {})).1 (by decide))⟩,
   ⟨((C5_success_slots_hold_views sample_env).2.1 (some {}) (some {})).1 (by decide),
     ((C5_success_slots_hold_views sample_env).2.1 (some {}) (some {})).2
       (((C5_success_slots_hold_views sample_env).2.1 (some {}) (some {})).1 (by decide))⟩,
   ⟨((C5_success_slots_hold_views sample_env).2.2.1 (some {}) (some {}) (some {})).1
       (by decide),
     ((C5_success_slots_hold_views sample_env).2.2.1 (some {}) (some {}) (some {})).2
       (((C5_success_slots_hold_views sample_env).2.2.1 (some {}) (some {}) (some {})).1
         (by decide))⟩,
   ⟨((C5_success_slots_hold_views sample_env).2.2.2 (some {}) (some {}) (some {})).1
       (by decide),
     ((C5_success_slots_hold_views sample_env).2.2.2 (some {}) (some {}) (some {})).2
       (((C5_success_slots_hold_views sample_env).2.2.2 (some {}) (some {}) (some {})).1
         (by decide))⟩,
   by decide, by decide, by decide, by decide⟩

/-- C6: in each procedure, for every environment and every choice of supplied and
omitted slots, the status is the same as with any other choice (so as with all
slots supplied), a supplied slot ends with what it ends with when all slots are
supplied, and an omitted slot stays omitted and is never assigned. -/
theorem C6_omitted_slots_do_not_matter (env : Env) :
    slots_independent2 (get_d3d9_vmt env) ∧ slots_independent2 (get_d3d10_vmt env) ∧
    slots_independent3 (get_d3d11_vmt env) ∧ slots_independent3 (get_d3d12_vmt env) := by
  refine ⟨⟨?_, ?_, ?_, ?_, ?_⟩, ⟨?_, ?_, ?_, ?_, ?_⟩, ⟨?_, ?_, ?_, ?_, ?_, ?_, ?_⟩,
    ⟨?_, ?_, ?_, ?_, ?_, ?_, ?_⟩⟩
  · intro a b a2 b2
    rw [get_d3d9_vmt_status, get_d3d9_vmt_status]
  · intro x b y
    simp [get_d3d9_vmt_slots, get_d3d9_vmt_status]
    split_ifs <;> rfl
  · intro a x y
    simp [get_d3d9_vmt_slots, get_d3d9_vmt_status]
    split_ifs <;> rfl
  · intro b
    refine ⟨?_, fun addr n h => ?_⟩
    · simp [get_d3d9_vmt_slots]
      split_ifs <;> rfl
    · have := (get_d3d9_vmt_copy_out env none b 0 addr n h).2
      simp at this
  · intro a
    refine ⟨?_, fun addr n h => ?_⟩
    · simp [get_d3d9_vmt_slots]
      split_ifs <;> rfl
    · have := (get_d3d9_vmt_copy_out env a none 1 addr n h).2
      simp at this
  · intro a b a2 b2
    rw [get_d3d10_vmt_status, get_d3d10_vmt_status]
  · intro x b y
    simp [get_d3d10_vmt_slots, get_d3d10_vmt_status]
    split_ifs <;> rfl
  · intro a x y
    simp [get_d3d10_vmt_slots, get_d3d10_vmt_status]
    split_ifs <;> rfl
  · intro b
    refine ⟨?_, fun addr n h => ?_⟩
    · simp [get_d3d10_vmt_slots]
      split_ifs <;> rfl
    · have := (get_d3d10_vmt_copy_out env none b 0 addr n h).2
      simp at this
  · intro a
    refine ⟨?_, fun addr n h => ?_⟩
    · simp [get_d3d10_vmt_slots]
      split_ifs <;> rfl
    · have := (get_d3d10_vmt_copy_out env a none 1 addr n h).2
      simp at this
  · intro a b c a2 b2 c2
    rw [get_d3d11_vmt_status, get_d3d11_vmt_status]
  · intro x b c y z
    simp [get_d3d11_vmt_slots, get_d3d11_vmt_status]
    split_ifs <;> rfl
  · intro a x c y z
    simp [get_d3d11_vmt_slots, get_d3d11_vmt_status]
    split_ifs <;> rfl
  · intro a b x y z
    simp [get_d3d11_vmt_slots, get_d3d11_vmt_status]
    split_ifs <;> rfl
  · intro b c
    refine ⟨?_, fun addr n h => ?_⟩
    · simp [get_d3d11_vmt_slots]
      split_ifs <;> rfl
    · have := (get_d3d11_vmt_copy_out env none b c 0 addr n h).2
      simp at this
  · intro a c
    refine ⟨?_, fun addr n h => ?_⟩
    · simp [get_d3d11_vmt_slots]
      split_ifs <;> rfl
    · have := (get_d3d11_vmt_copy_out env a none c 1 addr n h).2
      simp at this
  · intro a b
    refine ⟨?_, fun addr n h => ?_⟩
    · simp [get_d3d11_vmt_slots]
      split_ifs <;> rfl
    · have := (get_d3d11_vmt_copy_out env a b none 2 addr n h).2
      simp at this
  · intro a b c a2 b2 c2
    rw [get_d3d12_vmt_status, get_d3d12_vmt_status]
  · intro x b c y z
    simp [get_d3d12_vmt_slots, get_d3d12_vmt_status]
    split_ifs <;> rfl
  · intro a x c y z
    simp [get_d3d12_vmt_slots, get_d3d12_vmt_status]
    split_ifs <;> rfl
  · intro a b x y z
    simp [get_d3d12_vmt_slots, get_d3d12_vmt_status]
    split_ifs <;> rfl
  · intro b c
    refine ⟨?_, fun addr n h => ?_⟩
    · simp [get_d3d12_vmt_slots]
      split_ifs <;> rfl
    · have := (get_d3d12_vmt_copy_out env none b c 0 addr n h).2
      simp at this
  · intro a c
    refine ⟨?_, fun addr n h => ?_⟩
    · simp [get_d3d12_vmt_slots]
      split_ifs <;> rfl
    · have := (get_d3d12_vmt_copy_out env a none c 1 addr n h).2
      simp at this
  · intro a b
    refine ⟨?_, fun addr n h => ?_⟩
    · simp [get_d3d12_vmt_slots]
      split_ifs <;> rfl
    · have := (get_d3d12_vmt_copy_out env a b none 2 addr n h).2
      simp at this

/-- C7 (amended): the native creation calls of each procedure, in order and with
their arguments, are exactly these. Version 9: `Direct3DCreate9(D3D_SDK_VERSION)`,
then `CreateDevice` on the default adapter with device type
`D3DDEVTYPE_NULLREF` and a parameter block that is windowed, swap effect
discard, with back-buffer count 0 and format `D3DFMT_UNKNOWN` (both left
unset). Versions 10 and 11: one call with driver type null and a descriptor
that is windowed, one buffer, `DXGI_FORMAT_R8G8B8A8_UNORM`. Version 12:
`D3D12CreateDevice` with a null adapter (the default adapter) at feature level
11_0, `CreateDXGIFactory2`, `CreateCommandQueue`, then
`CreateSwapChainForHwnd` with no full-screen descriptor and a descriptor of two
buffers, `DXGI_FORMAT_R8G8B8A8_UNORM`, flip-discard. So versions 10 and 11
carry the whole configuration the spec names, version 9 all of it but the
colour format, version 12 all of it but the null or software driver. -/
theorem C7_creation_parameters (env : Env) :
    (∀ a b, native_calls (get_d3d9_vmt env a b).trace =
      if d3d9_module_present env = true ∧ d3d9_entry_present env = true ∧
          window_initialized env = true then
        NativeCall.Direct3DCreate9 D3D_SDK_VERSION ::
          (if d3d9_object env = nullptr then []
           else [NativeCall.CreateDevice (d3d9_object env) D3DADAPTER_DEFAULT D3DDEVTYPE_NULLREF
            (window_handle env)
            (D3DCREATE_DISABLE_DRIVER_MANAGEMENT ||| D3DCREATE_SOFTWARE_VERTEXPROCESSING)
            { BackBufferWidth := 0, BackBufferHeight := 0, BackBufferFormat := D3DFMT_UNKNOWN,
              BackBufferCount := 0, SwapEffect := D3DSWAPEFFECT_DISCARD,
              hDeviceWindow := (window_handle env), Windowed := TRUE }])
      else []) ∧
    (∀ a b, native_calls (get_d3d10_vmt env a b).trace =
      if d3d10_module_present env = true ∧ d3d10_entry_present env = true ∧
          window_initialized env = true then
        [NativeCall.D3D10CreateDeviceAndSwapChain nullptr D3D10_DRIVER_TYPE_NULL nullptr 0
            D3D10_SDK_VERSION
            { Width := 0, Height := 0, Format := DXGI_FORMAT_R8G8B8A8_UNORM, SampleCount := 1,
              BufferUsage := 0, BufferCount := 1, OutputWindow := (window_handle env),
              Windowed := TRUE, SwapEffect := 0, Flags := 0 }]
      else []) ∧
    (∀ a b d, native_calls (get_d3d11_vmt env a b d).trace =
      if d3d11_module_present env = true ∧ d3d11_entry_present env = true ∧
          window_initialized env = true then
        [NativeCall.D3D11CreateDeviceAndSwapChain nullptr D3D_DRIVER_TYPE_NULL nullptr 0
            nullptr 0 D3D11_SDK_VERSION
            { Width := 0, Height := 0, Format := DXGI_FORMAT_R8G8B8A8_UNORM, SampleCount := 1,
              BufferUsage := 0, BufferCount := 1, OutputWindow := (window_handle env),
              Windowed := TRUE, SwapEffect := 0, Flags := 0 }]
      else []) ∧
    (∀ a b d, native_calls (get_d3d12_vmt env a b d).trace =
      if d3d12_module_present env = true ∧ d3d12_entry_present env = true ∧
          window_initialized env = true then
        NativeCall.D3D12CreateDevice nullptr D3D_FEATURE_LEVEL_11_0 ::
          (if FAILED (d3d12_create_device env).1 = true then []
           else NativeCall.CreateDXGIFactory2 0 ::
            (if FAILED (d3d12_create_factory env).1 = true then []
             else NativeCall.CreateCommandQueue (d3d12_device env)
            { ListType := 0, Priority := 0, Flags := 0, NodeMask := 0 } ::
              (if FAILED (d3d12_create_queue env).1 = true then []
               else [NativeCall.CreateSwapChainForHwnd (d3d12_factory env) (d3d12_command_queue env)
            (window_handle env)
            { Width := 0, Height := 0, Format := DXGI_FORMAT_R8G8B8A8_UNORM, Stereo := 0,
              SampleCount := 1, BufferUsage := 0, BufferCount := 2, Scaling := 0,
              SwapEffect := DXGI_SWAP_EFFECT_FLIP_DISCARD, AlphaMode := 0, Flags := 0 }
            nullptr nullptr])))
      else []) ∧
    (spec_windowed (NativeCall.CreateDevice (d3d9_object env) D3DADAPTER_DEFAULT D3DDEVTYPE_NULLREF
            (window_handle env)
            (D3DCREATE_DISABLE_DRIVER_MANAGEMENT ||| D3DCREATE_SOFTWARE_VERTEXPROCESSING)
            { BackBufferWidth := 0, BackBufferHeight := 0, BackBufferFormat := D3DFMT_UNKNOWN,
              BackBufferCount := 0, SwapEffect := D3DSWAPEFFECT_DISCARD,
              hDeviceWindow := (window_handle env), Windowed := TRUE }) = true ∧
      spec_minimal_buffers (NativeCall.CreateDevice (d3d9_object env) D3DADAPTER_DEFAULT D3DDEVTYPE_NULLREF
            (window_handle env)
            (D3DCREATE_DISABLE_DRIVER_MANAGEMENT ||| D3DCREATE_SOFTWARE_VERTEXPROCESSING)
            { BackBufferWidth := 0, BackBufferHeight := 0, BackBufferFormat := D3DFMT_UNKNOWN,
              BackBufferCount := 0, SwapEffect := D3DSWAPEFFECT_DISCARD,
              hDeviceWindow := (window_handle env), Windowed := TRUE }) = true ∧
      spec_null_driver (NativeCall.CreateDevice (d3d9_object env) D3DADAPTER_DEFAULT D3DDEVTYPE_NULLREF
            (window_handle env)
            (D3DCREATE_DISABLE_DRIVER_MANAGEMENT ||| D3DCREATE_SOFTWARE_VERTEXPROCESSING)
            { BackBufferWidth := 0, BackBufferHeight := 0, BackBufferFormat := D3DFMT_UNKNOWN,
              BackBufferCount := 0, SwapEffect := D3DSWAPEFFECT_DISCARD,
              hDeviceWindow := (window_handle env), Windowed := TRUE }) = true ∧
      spec_color_32bit (NativeCall.CreateDevice (d3d9_object env) D3DADAPTER_DEFAULT D3DDEVTYPE_NULLREF
            (window_handle env)
            (D3DCREATE_DISABLE_DRIVER_MANAGEMENT ||| D3DCREATE_SOFTWARE_VERTEXPROCESSING)
            { BackBufferWidth := 0, BackBufferHeight := 0, BackBufferFormat := D3DFMT_UNKNOWN,
              BackBufferCount := 0, SwapEffect := D3DSWAPEFFECT_DISCARD,
              hDeviceWindow := (window_handle env), Windowed := TRUE }) = false ∧
      format_left_unset (NativeCall.CreateDevice (d3d9_object env) D3DADAPTER_DEFAULT D3DDEVTYPE_NULLREF
            (window_handle env)
            (D3DCREATE_DISABLE_DRIVER_MANAGEMENT ||| D3DCREATE_SOFTWARE_VERTEXPROCESSING)
            { BackBufferWidth := 0, BackBufferHeight := 0, BackBufferFormat := D3DFMT_UNKNOWN,
              BackBufferCount := 0, SwapEffect := D3DSWAPEFFECT_DISCARD,
              hDeviceWindow := (window_handle env), Windowed := TRUE }) = true) ∧
    (spec_smallest_configuration (NativeCall.D3D10CreateDeviceAndSwapChain nullptr D3D10_DRIVER_TYPE_NULL nullptr 0
            D3D10_SDK_VERSION
            { Width := 0, Height := 0, Format := DXGI_FORMAT_R8G8B8A8_UNORM, SampleCount := 1,
              BufferUsage := 0, BufferCount := 1, OutputWindow := (window_handle env),
              Windowed := TRUE, SwapEffect := 0, Flags := 0 }) = true ∧
      spec_smallest_configuration (NativeCall.D3D11CreateDeviceAndSwapChain nullptr D3D_DRIVER_TYPE_NULL nullptr 0
            nullptr 0 D3D11_SDK_VERSION
            { Width := 0, Height := 0, Format := DXGI_FORMAT_R8G8B8A8_UNORM, SampleCount := 1,
              BufferUsage := 0, BufferCount := 1, OutputWindow := (window_handle env),
              Windowed := TRUE, SwapEffect := 0, Flags := 0 }) = true) ∧
    (spec_null_driver (NativeCall.D3D12CreateDevice nullptr D3D_FEATURE_LEVEL_11_0) = false ∧
      on_default_adapter (NativeCall.D3D12CreateDevice nullptr D3D_FEATURE_LEVEL_11_0) = true ∧
      spec_windowed (NativeCall.CreateSwapChainForHwnd (d3d12_factory env) (d3d12_command_queue env)
            (window_handle env)
            { Width := 0, Height := 0, Format := DXGI_FORMAT_R8G8B8A8_UNORM, Stereo := 0,
              SampleCount := 1, BufferUsage := 0, BufferCount := 2, Scaling := 0,
              SwapEffect := DXGI_SWAP_EFFECT_FLIP_DISCARD, AlphaMode := 0, Flags := 0 }
            nullptr nullptr) = true ∧
      spec_minimal_buffers (NativeCall.CreateSwapChainForHwnd (d3d12_factory env) (d3d12_command_queue env)
            (window_handle env)
            { Width := 0, Height := 0, Format := DXGI_FORMAT_R8G8B8A8_UNORM, Stereo := 0,
              SampleCount := 1, BufferUsage := 0, BufferCount := 2, Scaling := 0,
              SwapEffect := DXGI_SWAP_EFFECT_FLIP_DISCARD, AlphaMode := 0, Flags := 0 }
            nullptr nullptr) =
        true ∧
      spec_color_32bit (NativeCall.CreateSwapChainForHwnd (d3d12_factory env) (d3d12_command_queue env)
            (window_handle env)
            { Width := 0, Height := 0, Format := DXGI_FORMAT_R8G8B8A8_UNORM, Stereo := 0,
              SampleCount := 1, BufferUsage := 0, BufferCount := 2, Scaling := 0,
              SwapEffect := DXGI_SWAP_EFFECT_FLIP_DISCARD, AlphaMode := 0, Flags := 0 }
            nullptr nullptr) =
        true) := by
  refine ⟨?_, ?_, ?_, ?_, ?_, ?_, ?_⟩
  · intro a b
    rw [get_d3d9_vmt_native_calls]
    rfl
  · intro a b
    rw [get_d3d10_vmt_native_calls]
    rfl
  · intro a b d
    rw [get_d3d11_vmt_native_calls]
    rfl
  · intro a b d
    rw [get_d3d12_vmt_native_calls]
    rfl
  · exact ⟨rfl, rfl, rfl, rfl, rfl⟩
  · exact ⟨rfl, rfl⟩
  · exact ⟨rfl, rfl, rfl, rfl, rfl⟩

/-- C7 (witness): in the sample environment the version-9 procedure makes exactly
its two calls and the version-12 procedure exactly its four, with the
arguments listed (numbers: `D3D_SDK_VERSION` 32, `D3DDEVTYPE_NULLREF` 4,
behaviour flags `0x120`, swap effect discard 1, `DXGI_FORMAT_R8G8B8A8_UNORM`
28, feature level `0xb000`, flip-discard 4). -/
theorem C7_creation_parameters_witness :
    native_calls (get_d3d9_vmt sample_env (some {}) (some {})).trace =
      [NativeCall.Direct3DCreate9 32,
       NativeCall.CreateDevice 0x4000 0 4 0x3000 0x120
         { BackBufferWidth := 0, BackBufferHeight := 0, BackBufferFormat := 0,
           BackBufferCount := 0, SwapEffect := 1, hDeviceWindow := 0x3000, Windowed := 1 }] ∧
    native_calls (get_d3d10_vmt sample_env (some {}) (some {})).trace =
      [NativeCall.D3D10CreateDeviceAndSwapChain 0 2 0 0 29
         { Width := 0, Height := 0, Format := 28, SampleCount := 1, BufferUsage := 0,
           BufferCount := 1, OutputWindow := 0x3000, Windowed := 1, SwapEffect := 0,
           Flags := 0 }] ∧
    native_calls (get_d3d11_vmt sample_env (some {}) (some {}) (some {})).trace =
      [NativeCall.D3D11CreateDeviceAndSwapChain 0 3 0 0 0 0 7
         { Width := 0, Height := 0, Format := 28, SampleCount := 1, BufferUsage := 0,
           BufferCount := 1, OutputWindow := 0x3000, Windowed := 1, SwapEffect := 0,
           Flags := 0 }] ∧
    native_calls (get_d3d12_vmt sample_env (some {}) (some {}) (some {})).trace =
      [NativeCall.D3D12CreateDevice 0 0xb000,
       NativeCall.CreateDXGIFactory2 0,
       NativeCall.CreateCommandQueue 0x7000
         { ListType := 0, Priority := 0, Flags := 0, NodeMask := 0 },
       NativeCall.CreateSwapChainForHwnd 0x9000 0xA000 0x3000
         { Width := 0, Height := 0, Format := 28, Stereo := 0, SampleCount := 1,
           BufferUsage := 0, BufferCount := 2, Scaling := 0, SwapEffect := 4, AlphaMode := 0,
           Flags := 0 } 0 0] :=
  ⟨((C7_creation_parameters sample_env).1 (some {}) (some {})).trans (by decide),
   ((C7_creation_parameters sample_env).2.1 (some {}) (some {})).trans (by decide),
   ((C7_creation_parameters sample_env).2.2.1 (some {}) (some {}) (some {})).trans
     (by decide),
   ((C7_creation_parameters sample_env).2.2.2.1 (some {}) (some {}) (some {})).trans
     (by decide)⟩

/-- C7 (counterexample): in the sample environment the version-12 procedure calls
`D3D12CreateDevice` with a null adapter, which names no null or software
driver, and the version-9 procedure calls `CreateDevice` with the colour format
left at `D3DFMT_UNKNOWN`; neither call is the configuration the spec names. -/
theorem C7_counterexample_default_adapter :
    Event.call (NativeCall.D3D12CreateDevice nullptr D3D_FEATURE_LEVEL_11_0) ∈
      (get_d3d12_vmt sample_env (some {}) (some {}) (some {})).trace ∧
    spec_null_driver (NativeCall.D3D12CreateDevice nullptr D3D_FEATURE_LEVEL_11_0) = false ∧
    spec_smallest_configuration (NativeCall.D3D12CreateDevice nullptr D3D_FEATURE_LEVEL_11_0) =
      false ∧
    Event.call (NativeCall.CreateDevice 0x4000 D3DADAPTER_DEFAULT D3DDEVTYPE_NULLREF 0x3000
      d3d9_behavior_flags (d3d9_params 0x3000)) ∈
      (get_d3d9_vmt sample_env (some {}) (some {})).trace ∧
    spec_color_32bit (NativeCall.CreateDevice 0x4000 D3DADAPTER_DEFAULT D3DDEVTYPE_NULLREF 0x3000
      d3d9_behavior_flags (d3d9_params 0x3000)) = false ∧
    spec_smallest_configuration (NativeCall.CreateDevice 0x4000 D3DADAPTER_DEFAULT
      D3DDEVTYPE_NULLREF 0x3000 d3d9_behavior_flags (d3d9_params 0x3000)) = false := by
  decide

/-- C8 (the code at the failing input): in the sample environment the version-9
procedure returns `Success` with the events listed; the `IDirect3D9` object
(at `0x4000`) is handed out with one reference, gets a second one from the
`ComPtr` constructor and is released once, so one reference is still held
at the return, on the `Success` path and on the path where `CreateDevice`
fails. The device (at `0x5000`) is released in full, and so is every object of
the version-12 procedure. -/
theorem C8_d3d9_object_keeps_a_reference :
    (get_d3d9_vmt sample_env (some {}) (some {})).status = some Status.Success ∧
    (get_d3d9_vmt sample_env (some {}) (some {})).trace =
      [Event.RegisterClassExW "tmp_window_class" 0xC001,
       Event.CreateWindowW 0xC001 0x3000,
       Event.call (NativeCall.Direct3DCreate9 D3D_SDK_VERSION),
       Event.acquire 0x4000,
       Event.AddRef 0x4000,
       Event.call (NativeCall.CreateDevice 0x4000 D3DADAPTER_DEFAULT D3DDEVTYPE_NULLREF 0x3000
         d3d9_behavior_flags (d3d9_params 0x3000)),
       Event.acquire 0x5000,
       Event.copy_out 0 0x4001 17,
       Event.copy_out 1 0x5001 119,
       Event.Release 0x5000,
       Event.Release 0x4000,
       Event.DestroyWindow 0x3000,
       Event.UnregisterClassW 0xC001] ∧
    outstanding_refs (get_d3d9_vmt sample_env (some {}) (some {})).trace 0x4000 = 1 ∧
    outstanding_refs (get_d3d9_vmt sample_env (some {}) (some {})).trace 0x5000 = 0 ∧
    (get_d3d9_vmt device_failure_env (some {}) (some {})).status = some Status.D3DError ∧
    outstanding_refs (get_d3d9_vmt device_failure_env (some {}) (some {})).trace 0x4000 = 1 ∧
    (get_d3d12_vmt sample_env (some {}) (some {}) (some {})).status = some Status.Success ∧
    outstanding_refs (get_d3d12_vmt sample_env (some {}) (some {}) (some {})).trace 0x7000 = 0 ∧
    outstanding_refs (get_d3d12_vmt sample_env (some {}) (some {}) (some {})).trace 0x9000 = 0 ∧
    outstanding_refs (get_d3d12_vmt sample_env (some {}) (some {}) (some {})).trace 0xA000 = 0 ∧
    outstanding_refs (get_d3d12_vmt sample_env (some {}) (some {}) (some {})).trace 0x6000 =
      0 := by
  decide

/-- C10: in each procedure, whenever the call does not return `Success`, no output
slot has been assigned: every slot holds after the call exactly what it held
before, and no assignment to a slot has taken place. -/
theorem C10_failure_writes_nothing (env : Env) :
    (∀ a b, (get_d3d9_vmt env a b).status ≠ some Status.Success →
      (get_d3d9_vmt env a b).slots = (a, b) ∧
      ∀ pos addr n, Event.copy_out pos addr n ∉ (get_d3d9_vmt env a b).trace) ∧
    (∀ a b, (get_d3d10_vmt env a b).status ≠ some Status.Success →
      (get_d3d10_vmt env a b).slots = (a, b) ∧
      ∀ pos addr n, Event.copy_out pos addr n ∉ (get_d3d10_vmt env a b).trace) ∧
    (∀ a b c, (get_d3d11_vmt env a b c).status ≠ some Status.Success →
      (get_d3d11_vmt env a b c).slots = (a, b, c) ∧
      ∀ pos addr n, Event.copy_out pos addr n ∉ (get_d3d11_vmt env a b c).trace) ∧
    (∀ a b c, (get_d3d12_vmt env a b c).status ≠ some Status.Success →
      (get_d3d12_vmt env a b c).slots = (a, b, c) ∧
      ∀ pos addr n, Event.copy_out pos addr n ∉ (get_d3d12_vmt env a b c).trace) := by
  refine ⟨?_, ?_, ?_, ?_⟩
  · intro a b h
    refine ⟨?_, fun pos addr n hmem => h (get_d3d9_vmt_copy_out env a b pos addr n hmem).1⟩
    rw [get_d3d9_vmt_slots, if_neg h]
  · intro a b h
    refine ⟨?_, fun pos addr n hmem => h (get_d3d10_vmt_copy_out env a b pos addr n hmem).1⟩
    rw [get_d3d10_vmt_slots, if_neg h]
  · intro a b c h
    refine ⟨?_, fun pos addr n hmem => h (get_d3d11_vmt_copy_out env a b c pos addr n hmem).1⟩
    rw [get_d3d11_vmt_slots, if_neg h]
  · intro a b c h
    refine ⟨?_, fun pos addr n hmem => h (get_d3d12_vmt_copy_out env a b c pos addr n hmem).1⟩
    rw [get_d3d12_vmt_slots, if_neg h]

/-- C10 (witness): when `CreateDevice` fails, a slot that held a three-entry view
and a slot that held an empty one are both as before. -/
theorem C10_failure_witness :
    (get_d3d9_vmt device_failure_env (some (VMT.ctor sample_mem 100 3)) (some {})).slots =
      (some (VMT.ctor sample_mem 100 3), some {}) ∧
    ∀ pos addr n, Event.copy_out pos addr n ∉
      (get_d3d9_vmt device_failure_env (some (VMT.ctor sample_mem 100 3)) (some {})).trace :=
  (C10_failure_writes_nothing device_failure_env).1 (some (VMT.ctor sample_mem 100 3)) (some {})
    (by decide)

end render_scout
